import Mathlib

/-!
Verification of the Botie-Backend reminder notification engine.

The definitions below are a shallow embedding of the reminder service
(`ReminderService` in the reminder-service file), the Twilio call-status
webhook controller, and the location-update controller.  The document store
is modelled as an association list from ids to documents; mongoose `find`
queries become list filters, `findByIdAndUpdate` becomes a field update, and
`save` on a fetched document writes back the modified fields.  The two cron
loops, the manual trigger endpoints, the delayed 35-second status poll, the
60-second call retry timer and the webhook are events of one step relation.
The haversine proximity test (which is real-valued trigonometry) enters the
state machine as a boolean oracle `Env.near`; it is modelled exactly, over
the reals, in a separate section for the distance-threshold claim.
-/

namespace Botie

abbrev ReminderId := Nat
abbrev UserId := Nat

/-- A latitude/longitude pair, as stored in `coordinates` and
`currentLocation`. -/
structure Coords where
  latitude : Rat
  longitude : Rat
deriving DecidableEq, Repr

/-- The view of a User document used by the reminder engine:
contact fields selected by `populate`, the provisioned Twilio number, and
the `currentLocation` the location cron's `isUserNearReminder` reads. -/
structure UserDoc where
  email : String := ""
  phoneNumber : String := ""
  twilioPhoneNumber : Option String := none
  currentLocation : Option Coords := none
deriving DecidableEq, Repr

/-- The `callStatus` enumeration on a Reminder document. -/
inductive CallStatus where
  | not_called
  | calling
  | completed
  | failed
  | no_answer
  | busy
  | cancelled
deriving DecidableEq, Repr

/-- A Reminder document: the fields of the Reminder model read and written
by the reminder service (description/owner/coordinates/schedule, the two
per-trigger notification flags with their timestamps, and the call-tracking
fields `callAttempts`/`callStatus`/`callSid`/`lastCallAttempt`). -/
structure ReminderDoc where
  user : UserId
  description : String := ""
  locationName : Option String := none
  coordinates : Option Coords := none
  reminderDateTime : Option Int := none
  timeNotificationSent : Bool := false
  timeNotificationSentAt : Option Int := none
  locationNotificationSent : Bool := false
  locationNotificationSentAt : Option Int := none
  callAttempts : Nat := 0
  callStatus : CallStatus := CallStatus.not_called
  callSid : Option Nat := none
  lastCallAttempt : Option Int := none
  isDeleted : Bool := false
deriving DecidableEq, Repr

/-- The two trigger types of a reminder. -/
inductive TriggerType where
  | time
  | location
deriving DecidableEq, Repr

/-- Look up a document by id (first match), as `findById` does. -/
def dbFind? {α : Type} : List (Nat × α) → Nat → Option α
  | [], _ => none
  | p :: rest, id => if p.1 = id then some p.2 else dbFind? rest id

/-- Update the document with the given id in place, as `findByIdAndUpdate`
or a `save` of modified fields does. -/
def dbUpdate {α : Type} (db : List (Nat × α)) (id : Nat) (f : α → α) :
    List (Nat × α) :=
  db.map (fun p => if p.1 = id then (p.1, f p.2) else p)

/-- The in-process state of the reminder engine: the Reminder and User
collections of the store, the in-memory `activeReminders` dedup map (keys
are `(triggerType, reminderId)`, mirroring the `` `${triggerType}_${id}` ``
string keys), and a counter supplying fresh Twilio call SIDs. -/
structure SvcState where
  reminders : List (ReminderId × ReminderDoc)
  users : List (UserId × UserDoc)
  activeReminders : List (TriggerType × ReminderId)
  nextSid : Nat := 0
deriving DecidableEq, Repr

/-- The environment of a run: the proximity oracle (`calculateDistance`
compared against the 0.1 km threshold, abstracted as a boolean test on the
two coordinate pairs), whether `sendEmail` succeeds, and whether
`makePhoneCall` succeeds. -/
structure Env where
  near : Coords → Coords → Bool
  emailOk : Bool
  placeOk : Bool

/-- Observable actions emitted by the engine: dedup-guard operations,
channel dispatches, the persisted notified-flag write and the timers the
engine arms (delays in milliseconds). -/
inductive Action where
  | guardSkip (t : TriggerType) (id : ReminderId)
  | guardReserve (t : TriggerType) (id : ReminderId)
  | guardRelease (t : TriggerType) (id : ReminderId)
  | scheduleGuardRelease (id : ReminderId) (delayMs : Nat)
  | emailDispatch (id : ReminderId) (t : TriggerType)
  | callDispatch (id : ReminderId) (sid : Nat)
  | scheduleStatusCheck (id : ReminderId) (sid : Nat) (delayMs : Nat)
  | pushDispatch (uid : UserId) (id : ReminderId) (t : TriggerType)
  | markNotified (id : ReminderId) (t : TriggerType)
  | scheduleRetry (id : ReminderId) (delayMs : Nat)
deriving DecidableEq, Repr

/-- The reply `getCallStatus` returns for a call SID: the Twilio call status
string and the call duration. -/
structure TwilioCallInfo where
  status : String
  duration : Int
deriving DecidableEq, Repr

/-- Events driving the engine: the two cron ticks, the manual one-shot
triggers, a location update from the frontend, the deferred 5-minute
location guard release, an administrative notification reset, the
60-second call retry timer firing, the 35-second status poll firing
(carrying the reply `getCallStatus` produced, `none` when it threw), and
an inbound Twilio call-status webhook. -/
inductive Event where
  | timeTick (now : Int)
  | manualTimeCheck (now : Int)
  | locationTick (now : Int)
  | manualLocationCheck (now : Int)
  | locationUpdate (uid : UserId) (loc : Coords) (now : Int)
  | guardTimerFire (id : ReminderId)
  | reset (id : ReminderId) (t : TriggerType)
  | callRetryFire (id : ReminderId) (now : Int)
  | statusPollFire (id : ReminderId) (sid : Nat) (result : Option TwilioCallInfo)
  | twilioWebhook (callSid : Nat) (callStatus : String) (callDuration : Int)
deriving DecidableEq, Repr

/-- Embedding of `ReminderService.makeReminderCall`: re-fetch the reminder,
return without any state change when `callAttempts >= 2`, otherwise set
`callStatus = 'calling'`, write `callAttempts + 1` and `lastCallAttempt`,
place the call and record its SID, arming the 35-second status check; when
call placement throws, the catch block records `callStatus = 'failed'`. -/
def makeReminderCall (placeOk : Bool) (st : SvcState) (reminderId : ReminderId)
    (now : Int) : SvcState × List Action :=
  match dbFind? st.reminders reminderId with
  | none => (st, [])
  | some reminder =>
    if 2 ≤ reminder.callAttempts then
      (st, [])
    else
      let st1 : SvcState := { st with
        reminders := dbUpdate st.reminders reminderId (fun r =>
          { r with callStatus := CallStatus.calling,
                   callAttempts := reminder.callAttempts + 1,
                   lastCallAttempt := some now }) }
      if placeOk then
        let sid := st1.nextSid
        ({ st1 with
            reminders := dbUpdate st1.reminders reminderId
              (fun r => { r with callSid := some sid }),
            nextSid := st1.nextSid + 1 },
         [Action.callDispatch reminderId sid,
          Action.scheduleStatusCheck reminderId sid 35000])
      else
        ({ st1 with
            reminders := dbUpdate st1.reminders reminderId (fun r =>
              { r with callStatus := CallStatus.failed,
                       lastCallAttempt := some now }) },
         [])

/-- The final step of `processReminder`: set the trigger type's notified
flag and timestamp on the document and persist them (`reminder.save()`). -/
def markReminderNotified (st : SvcState) (reminderId : ReminderId)
    (triggerType : TriggerType) (now : Int) : SvcState :=
  { st with reminders := dbUpdate st.reminders reminderId (fun r =>
      match triggerType with
      | TriggerType.time =>
          { r with timeNotificationSent := true,
                   timeNotificationSentAt := some now }
      | TriggerType.location =>
          { r with locationNotificationSent := true,
                   locationNotificationSentAt := some now }) }

/-- Embedding of `ReminderService.processReminder`: send the email (its
failure is caught inside `sendReminderEmail`), place the voice call when
the owner has a Twilio number, emit the WebSocket push (its failure is
caught inside `emitNotification`), then unconditionally set the trigger
type's notified flag/timestamp and persist.  When the populated owner is
missing, the property accesses on `user` throw and the catch block leaves
every field unchanged. -/
def processReminder (env : Env) (st : SvcState) (reminderId : ReminderId)
    (reminder : ReminderDoc) (triggerType : TriggerType) (now : Int) :
    SvcState × List Action :=
  match dbFind? st.users reminder.user with
  | none => (st, [])
  | some user =>
    let callRes : SvcState × List Action :=
      if user.twilioPhoneNumber.isSome then
        makeReminderCall env.placeOk st reminderId now
      else
        (st, [])
    (markReminderNotified callRes.1 reminderId triggerType now,
     (if env.emailOk then [Action.emailDispatch reminderId triggerType] else [])
       ++ callRes.2
       ++ [Action.pushDispatch reminder.user reminderId triggerType,
           Action.markNotified reminderId triggerType])

/-- Embedding of `ReminderService.isUserNearReminder`: false when the owner
has no stored `currentLocation`; otherwise compare the stored location with
the reminder's coordinates against the 100 m threshold (a reminder without
coordinates yields a NaN distance, which fails the comparison). -/
def isUserNearReminder (env : Env) (st : SvcState) (reminder : ReminderDoc) :
    Bool :=
  match dbFind? st.users reminder.user with
  | none => false
  | some user =>
    match user.currentLocation with
    | none => false
    | some loc =>
      match reminder.coordinates with
      | none => false
      | some c => env.near loc c

/-- The time-trigger query: `reminderDateTime <= now`, the time flag not yet
set, not soft-deleted. -/
def timeQuery (st : SvcState) (now : Int) : List (ReminderId × ReminderDoc) :=
  st.reminders.filter (fun p =>
    (match p.2.reminderDateTime with
     | some d => decide (d ≤ now)
     | none => false)
    && !p.2.timeNotificationSent && !p.2.isDeleted)

/-- The location-trigger query: the location flag not yet set, not
soft-deleted, coordinates present. -/
def locationQuery (st : SvcState) : List (ReminderId × ReminderDoc) :=
  st.reminders.filter (fun p =>
    !p.2.locationNotificationSent && !p.2.isDeleted && p.2.coordinates.isSome)

/-- The query of `handleLocationUpdate`: this user's reminders with no
`reminderDateTime`, the location flag still false, not soft-deleted. -/
def locationUpdateQuery (st : SvcState) (uid : UserId) :
    List (ReminderId × ReminderDoc) :=
  st.reminders.filter (fun p =>
    decide (p.2.user = uid) && !p.2.locationNotificationSent
    && !p.2.isDeleted && p.2.reminderDateTime.isNone)

/-- One candidate of the time cron loop: skip if the `(time, id)` key is
already in `activeReminders`, otherwise reserve it, process, and release it
in the `finally` block. -/
def timeCandidateStep (env : Env) (now : Int) (st : SvcState)
    (c : ReminderId × ReminderDoc) : SvcState × List Action :=
  if (TriggerType.time, c.1) ∈ st.activeReminders then
    (st, [Action.guardSkip TriggerType.time c.1])
  else
    let st1 : SvcState :=
      { st with activeReminders := (TriggerType.time, c.1) :: st.activeReminders }
    let res := processReminder env st1 c.1 c.2 TriggerType.time now
    ({ res.1 with
        activeReminders := res.1.activeReminders.erase (TriggerType.time, c.1) },
     Action.guardReserve TriggerType.time c.1
       :: res.2 ++ [Action.guardRelease TriggerType.time c.1])

/-- One candidate of the location cron loop: process it when the owner is
near; the loop consults no dedup guard. -/
def locationCandidateStep (env : Env) (now : Int) (st : SvcState)
    (c : ReminderId × ReminderDoc) : SvcState × List Action :=
  if isUserNearReminder env st c.2 then
    processReminder env st c.1 c.2 TriggerType.location now
  else
    (st, [])

/-- One candidate of `handleLocationUpdate`: when the supplied location is
within the threshold of the reminder's coordinates, skip if the
`(location, id)` key is reserved, otherwise reserve it, process, and arm
the 5-minute deferred release (the key stays reserved meanwhile). -/
def locationUpdateCandidateStep (env : Env) (loc : Coords) (now : Int)
    (st : SvcState) (c : ReminderId × ReminderDoc) : SvcState × List Action :=
  match c.2.coordinates with
  | none => (st, [])
  | some rc =>
    if env.near loc rc then
      if (TriggerType.location, c.1) ∈ st.activeReminders then
        (st, [])
      else
        let st1 : SvcState :=
          { st with
              activeReminders := (TriggerType.location, c.1) :: st.activeReminders }
        let res := processReminder env st1 c.1 c.2 TriggerType.location now
        (res.1,
         Action.guardReserve TriggerType.location c.1
           :: res.2 ++ [Action.scheduleGuardRelease c.1 300000])
    else
      (st, [])

/-- Run a per-candidate body over the list of candidates a query returned,
threading the state and concatenating the emitted actions. -/
def runCandidates (f : SvcState → ReminderId × ReminderDoc → SvcState × List Action) :
    SvcState → List (ReminderId × ReminderDoc) → SvcState × List Action
  | st, [] => (st, [])
  | st, c :: cs =>
    ((runCandidates f (f st c).1 cs).1,
     (f st c).2 ++ (runCandidates f (f st c).1 cs).2)

/-- Embedding of `ReminderService.checkTimeBasedReminders` (one tick). -/
def checkTimeBasedReminders (env : Env) (st : SvcState) (now : Int) :
    SvcState × List Action :=
  runCandidates (timeCandidateStep env now) st (timeQuery st now)

/-- Embedding of `ReminderService.checkLocationBasedReminders` (one tick). -/
def checkLocationBasedReminders (env : Env) (st : SvcState) (now : Int) :
    SvcState × List Action :=
  runCandidates (locationCandidateStep env now) st (locationQuery st)

/-- Embedding of `ReminderService.handleLocationUpdate` for one
location-update call `(userId, {latitude, longitude})`. -/
def handleLocationUpdate (env : Env) (st : SvcState) (uid : UserId)
    (loc : Coords) (now : Int) : SvcState × List Action :=
  runCandidates (locationUpdateCandidateStep env loc now) st
    (locationUpdateQuery st uid)

/-- The shared call-outcome switch of `checkCallStatus` and the Twilio
webhook handler: map the provider status (plus duration) to the stored
`callStatus`, and decide whether a retry should be scheduled
(`callAttempts < 2` in every branch except a completed call with positive
duration). -/
def classifyCallOutcome (status : String) (duration : Int) (callAttempts : Nat) :
    CallStatus × Bool :=
  if status = "completed" then
    if 0 < duration then (CallStatus.completed, false)
    else (CallStatus.no_answer, decide (callAttempts < 2))
  else if status = "failed" then (CallStatus.failed, decide (callAttempts < 2))
  else if status = "busy" then (CallStatus.busy, decide (callAttempts < 2))
  else if status = "no-answer" then
    (CallStatus.no_answer, decide (callAttempts < 2))
  else (CallStatus.failed, decide (callAttempts < 2))

/-- Embedding of `ReminderService.checkCallStatus` (the 35-second delayed
poll): fetch the live status of the polled SID, re-fetch the reminder by
id, classify, store the new `callStatus`, and arm the 60-second retry when
the classification asks for one.  The polled SID is never compared with
the SID currently stored on the reminder. -/
def checkCallStatus (getStatus : Nat → Option TwilioCallInfo) (st : SvcState)
    (reminderId : ReminderId) (callSid : Nat) : SvcState × List Action :=
  match getStatus callSid with
  | none => (st, [])
  | some info =>
    match dbFind? st.reminders reminderId with
    | none => (st, [])
    | some reminder =>
      let outcome := classifyCallOutcome info.status info.duration
        reminder.callAttempts
      ({ st with reminders := dbUpdate st.reminders reminderId (fun r =>
           { r with callStatus := outcome.1 }) },
       if outcome.2 then [Action.scheduleRetry reminderId 60000] else [])

/-- Embedding of the webhook controller's `handleTwilioCallStatus` body:
find the reminder whose stored `callSid` equals the posted `CallSid` (a
stale SID matches nothing and the request is ignored), classify, store the
new `callStatus`, and arm the 60-second retry when asked. -/
def handleTwilioCallStatus (st : SvcState) (callSid : Nat)
    (callStatus : String) (callDuration : Int) : SvcState × List Action :=
  match st.reminders.find? (fun p => decide (p.2.callSid = some callSid)) with
  | none => (st, [])
  | some p =>
    let outcome := classifyCallOutcome callStatus callDuration p.2.callAttempts
    ({ st with reminders := dbUpdate st.reminders p.1 (fun r =>
         { r with callStatus := outcome.1 }) },
     if outcome.2 then [Action.scheduleRetry p.1 60000] else [])

/-- The webhook route seen over HTTP: the handler body runs inside a
`try`/`catch`; a normal completion answers 200 and an internal error is
answered with 500 from the catch block. -/
def twilioCallStatusRoute (internalError : Bool) (st : SvcState)
    (callSid : Nat) (callStatus : String) (callDuration : Int) :
    SvcState × List Action × Nat :=
  if internalError then
    (st, ([], 500))
  else
    ((handleTwilioCallStatus st callSid callStatus callDuration).1,
     ((handleTwilioCallStatus st callSid callStatus callDuration).2, 200))

/-- Embedding of `ReminderService.resetNotificationStatus`: clear the
trigger type's notified flag and timestamp (throws, changing nothing, when
the reminder does not exist). -/
def resetNotificationStatus (st : SvcState) (reminderId : ReminderId)
    (triggerType : TriggerType) : SvcState :=
  match dbFind? st.reminders reminderId with
  | none => st
  | some _ =>
    { st with reminders := dbUpdate st.reminders reminderId (fun r =>
        match triggerType with
        | TriggerType.time =>
            { r with timeNotificationSent := false,
                     timeNotificationSentAt := none }
        | TriggerType.location =>
            { r with locationNotificationSent := false,
                     locationNotificationSentAt := none }) }

/-- One step of the engine.  The manual trigger endpoints invoke the same
check functions the cron ticks do; the timer events run the closures the
service armed. -/
def step (env : Env) (st : SvcState) : Event → SvcState × List Action
  | Event.timeTick now => checkTimeBasedReminders env st now
  | Event.manualTimeCheck now => checkTimeBasedReminders env st now
  | Event.locationTick now => checkLocationBasedReminders env st now
  | Event.manualLocationCheck now => checkLocationBasedReminders env st now
  | Event.locationUpdate uid loc now => handleLocationUpdate env st uid loc now
  | Event.guardTimerFire id =>
    ({ st with
        activeReminders := st.activeReminders.erase (TriggerType.location, id) },
     [])
  | Event.reset id t => (resetNotificationStatus st id t, [])
  | Event.callRetryFire id now => makeReminderCall env.placeOk st id now
  | Event.statusPollFire id sid result => checkCallStatus (fun _ => result) st id sid
  | Event.twilioWebhook sid status dur => handleTwilioCallStatus st sid status dur

/-- Run a sequence of events, concatenating the emitted actions. -/
def run (env : Env) (st : SvcState) : List Event → SvcState × List Action
  | [] => (st, [])
  | e :: es =>
    ((run env (step env st e).1 es).1,
     (step env st e).2 ++ (run env (step env st e).1 es).2)

/-- The notified flag of a document for a trigger type. -/
def flagOf (r : ReminderDoc) : TriggerType → Bool
  | TriggerType.time => r.timeNotificationSent
  | TriggerType.location => r.locationNotificationSent

/-- The stored notified flag of a reminder id (false when absent). -/
def storedFlag (db : List (ReminderId × ReminderDoc)) (id : ReminderId)
    (t : TriggerType) : Bool :=
  match dbFind? db id with
  | some r => flagOf r t
  | none => false

/-- The stored notified flag as 0/1, the measure the at-most-once argument
telescopes over. -/
def flagVal (db : List (ReminderId × ReminderDoc)) (id : ReminderId)
    (t : TriggerType) : Nat :=
  if storedFlag db id t then 1 else 0

/-- The stored notified-at timestamp of a reminder id for a trigger type. -/
def storedNotifiedAt (db : List (ReminderId × ReminderDoc)) (id : ReminderId)
    (t : TriggerType) : Option Int :=
  match dbFind? db id with
  | some r =>
    match t with
    | TriggerType.time => r.timeNotificationSentAt
    | TriggerType.location => r.locationNotificationSentAt
  | none => none

/-- The stored `callAttempts` of a reminder id (0 when absent). -/
def attemptsOf (db : List (ReminderId × ReminderDoc)) (id : ReminderId) : Nat :=
  match dbFind? db id with
  | some r => r.callAttempts
  | none => 0

/-- The stored `callStatus` of a reminder id. -/
def storedCallStatus (db : List (ReminderId × ReminderDoc)) (id : ReminderId) :
    Option CallStatus :=
  (dbFind? db id).map (·.callStatus)

/-- The reminder id an action concerns. -/
def actionReminder : Action → ReminderId
  | Action.guardSkip _ id => id
  | Action.guardReserve _ id => id
  | Action.guardRelease _ id => id
  | Action.scheduleGuardRelease id _ => id
  | Action.emailDispatch id _ => id
  | Action.callDispatch id _ => id
  | Action.scheduleStatusCheck id _ _ => id
  | Action.pushDispatch _ id _ => id
  | Action.markNotified id _ => id
  | Action.scheduleRetry id _ => id

/-- The trigger type an action is tagged with, when it carries one. -/
def actionTrigger : Action → Option TriggerType
  | Action.guardSkip t _ => some t
  | Action.guardReserve t _ => some t
  | Action.guardRelease t _ => some t
  | Action.emailDispatch _ t => some t
  | Action.pushDispatch _ _ t => some t
  | Action.markNotified _ t => some t
  | _ => none

/-- Whether an action selects or notifies the given reminder for the given
trigger type (a guard reservation/skip, or a channel dispatch or the
notified-flag write tagged with that trigger). -/
def triggerActionFor (a : Action) (id : ReminderId) (t : TriggerType) : Bool :=
  decide (actionReminder a = id) && decide (actionTrigger a = some t)

/-- The number of notified-flag writes for `(id, t)` in an action trace. -/
def markCount (acts : List Action) (id : ReminderId) (t : TriggerType) : Nat :=
  acts.countP (fun a => decide (a = Action.markNotified id t))

/-- The number of calls placed for a reminder id in an action trace. -/
def dispatchCount (acts : List Action) (id : ReminderId) : Nat :=
  acts.countP (fun a =>
    match a with
    | Action.callDispatch i _ => decide (i = id)
    | _ => false)

/-- Whether an action is a dedup-guard operation. -/
def isGuardAction : Action → Bool
  | Action.guardSkip _ _ => true
  | Action.guardReserve _ _ => true
  | Action.guardRelease _ _ => true
  | Action.scheduleGuardRelease _ _ => true
  | _ => false

/-- Whether a trace contains any dedup-guard operation. -/
def hasGuardAction (acts : List Action) : Bool :=
  acts.any isGuardAction

noncomputable section RealDistance

/-- Embedding of `ReminderService.deg2rad`. -/
def deg2rad (deg : ℝ) : ℝ := deg * (Real.pi / 180)

/-- JavaScript's `Math.atan2 (y, x)` over the reals (signed zeros
ignored). -/
def atan2 (y x : ℝ) : ℝ :=
  if 0 < x then Real.arctan (y / x)
  else if x < 0 then
    (if 0 ≤ y then Real.arctan (y / x) + Real.pi
     else Real.arctan (y / x) - Real.pi)
  else if 0 < y then Real.pi / 2
  else if y < 0 then -(Real.pi / 2)
  else 0

/-- Embedding of `ReminderService.calculateDistance` over the reals: the
source's haversine computation with earth radius constant `R = 6371` km and
central angle `c = 2 * atan2 (sqrt a) (sqrt (1 - a))`. -/
def calculateDistance (lat1 lon1 lat2 lon2 : ℝ) : ℝ :=
  let R : ℝ := 6371
  let dLat := deg2rad (lat2 - lat1)
  let dLon := deg2rad (lon2 - lon1)
  let a := Real.sin (dLat / 2) * Real.sin (dLat / 2) +
    Real.cos (deg2rad lat1) * Real.cos (deg2rad lat2) *
      (Real.sin (dLon / 2) * Real.sin (dLon / 2))
  let c := 2 * atan2 (Real.sqrt a) (Real.sqrt (1 - a))
  R * c

/-- Modelled from the spec: the textbook haversine great-circle distance,
`2 R arcsin (sqrt h)` with `h = sin^2 (dPhi/2) + cos phi1 cos phi2
sin^2 (dLambda/2)`, earth radius constant 6371 km, angles converted from
degrees to radians. -/
def haversineSpecDistance (lat1 lon1 lat2 lon2 : ℝ) : ℝ :=
  let R : ℝ := 6371
  let phi1 := deg2rad lat1
  let phi2 := deg2rad lat2
  let lam1 := deg2rad lon1
  let lam2 := deg2rad lon2
  let h := Real.sin ((phi2 - phi1) / 2) ^ 2 +
    Real.cos phi1 * Real.cos phi2 * Real.sin ((lam2 - lam1) / 2) ^ 2
  2 * R * Real.arcsin (Real.sqrt h)

/-- The proximity predicate of `isUserNearReminder` and
`handleLocationUpdate` at the level of coordinates: the computed distance
is within the fixed 0.1 km (100 m) threshold, boundary included
(`distance <= 0.1` in the source). -/
def isNearLocation (lat1 lon1 lat2 lon2 : ℝ) : Prop :=
  calculateDistance lat1 lon1 lat2 lon2 ≤ 0.1

end RealDistance

/-- A proximity oracle that always answers true (the owner standing exactly
at the reminder's coordinates: `calculateDistance` is 0 there). -/
def nearAlways : Coords → Coords → Bool := fun _ _ => true

/-- Environment used by the concrete runs below: proximity always holds,
email and call placement succeed. -/
def envAll : Env := { near := nearAlways, emailOk := true, placeOk := true }

/-- Concrete state: one owner without a Twilio number, one due time
reminder. -/
def stW1 : SvcState :=
  { reminders := [(1, { user := 0, reminderDateTime := some 10 })],
    users := [(0, {})],
    activeReminders := [],
    nextSid := 0 }

/-- Two consecutive time ticks after the reminder of `stW1` is due. -/
def esW1 : List Event := [Event.timeTick 100, Event.timeTick 200]

/-- Concrete state: one owner with a Twilio number, one reminder with no
call attempts yet. -/
def stW2 : SvcState :=
  { reminders := [(1, { user := 0 })],
    users := [(0, { twilioPhoneNumber := some "+15550100" })],
    activeReminders := [],
    nextSid := 0 }

/-- Three retry timers firing for the reminder of `stW2`. -/
def esW2 : List Event :=
  [Event.callRetryFire 1 0, Event.callRetryFire 1 10, Event.callRetryFire 1 20]

/-- Concrete state: one due time reminder whose `(time, 1)` dedup key is
already reserved. -/
def stW3 : SvcState :=
  { reminders := [(1, { user := 0, reminderDateTime := some 0 })],
    users := [(0, {})],
    activeReminders := [(TriggerType.time, 1)],
    nextSid := 0 }

/-- Concrete state for the location cron: a location reminder whose owner
stands exactly at its coordinates, with the `(location, 1)` dedup key
already reserved. -/
def stC3 : SvcState :=
  { reminders := [(1, { user := 0, coordinates := some ⟨0, 0⟩ })],
    users := [(0, { currentLocation := some ⟨0, 0⟩ })],
    activeReminders := [(TriggerType.location, 1)],
    nextSid := 0 }

/-- Concrete state: the reminder's stored call SID is 5 (a retry superseded
call 4), one call attempt so far. -/
def stC4 : SvcState :=
  { reminders := [(1, { user := 0, callSid := some 5, callAttempts := 1,
                        callStatus := CallStatus.calling })],
    users := [(0, { twilioPhoneNumber := some "+15550100" })],
    activeReminders := [],
    nextSid := 6 }

/-- Concrete state with no reminders at all. -/
def stC5 : SvcState :=
  { reminders := [], users := [], activeReminders := [], nextSid := 0 }

/-- Concrete location reminder owned by user 0 at the origin. -/
def remW6 : ReminderDoc := { user := 0, coordinates := some ⟨0, 0⟩ }

/-- Concrete state: user 0 has no stored `currentLocation`; reminder 1 is
`remW6`. -/
def stW6 : SvcState :=
  { reminders := [(1, remW6)],
    users := [(0, {})],
    activeReminders := [],
    nextSid := 0 }

/-- Concrete owner with a provisioned Twilio number. -/
def uW7 : UserDoc := { twilioPhoneNumber := some "+15550100" }

/-- Concrete time reminder owned by user 0, no call attempts yet. -/
def remW7 : ReminderDoc := { user := 0, reminderDateTime := some 10 }

/-- Concrete state: owner with a Twilio number and a reminder with call
attempts left. -/
def stW7 : SvcState :=
  { reminders := [(1, remW7)],
    users := [(0, uW7)],
    activeReminders := [],
    nextSid := 3 }

/-- Concrete reminder amid its first call (`callAttempts = 1`). -/
def remW9 : ReminderDoc :=
  { user := 0, callSid := some 2, callAttempts := 1,
    callStatus := CallStatus.calling }

/-- Concrete state holding `remW9`. -/
def stW9 : SvcState :=
  { reminders := [(1, remW9)],
    users := [(0, { twilioPhoneNumber := some "+15550100" })],
    activeReminders := [],
    nextSid := 3 }

/-- Concrete state: a hybrid reminder with both coordinates and a
`reminderDateTime`, not yet location-notified. -/
def stW10 : SvcState :=
  { reminders := [(1, { user := 0, coordinates := some ⟨0, 0⟩,
                        reminderDateTime := some 5 })],
    users := [(0, {})],
    activeReminders := [],
    nextSid := 0 }

/-! ### Store lemmas -/

theorem dbFind?_update {α : Type} (db : List (Nat × α)) (i j : Nat) (f : α → α) :
    dbFind? (dbUpdate db j f) i =
      if j = i then (dbFind? db i).map f else dbFind? db i := by
  induction db with
  | nil => by_cases h : j = i <;> simp [dbFind?, dbUpdate, h]
  | cons p rest ih =>
    simp only [dbUpdate, List.map_cons] at ih ⊢
    by_cases hp : p.1 = j
    · by_cases hi : j = i
      · subst hi
        simp [dbFind?, hp, ih]
      · have hpi : ¬ p.1 = i := fun hc => hi ((hp.symm.trans hc))
        simp [dbFind?, hp, hpi, hi, ih]
    · by_cases hpi : p.1 = i
      · by_cases hi : j = i
        · exact absurd (hpi.trans hi.symm) hp
        · have hij : ¬ i = j := fun hc => hi hc.symm
          simp [dbFind?, hp, hpi, hi, hij]
      · simp [dbFind?, hp, hpi, ih]

theorem dbFind?_update_ne {α : Type} (db : List (Nat × α)) {i j : Nat}
    (f : α → α) (h : j ≠ i) :
    dbFind? (dbUpdate db j f) i = dbFind? db i := by
  simp [dbFind?_update, h]

theorem dbFind?_update_self {α : Type} (db : List (Nat × α)) (i : Nat)
    (f : α → α) :
    dbFind? (dbUpdate db i f) i = (dbFind? db i).map f := by
  simp [dbFind?_update]

theorem dbUpdate_keys {α : Type} (db : List (Nat × α)) (j : Nat) (f : α → α) :
    (dbUpdate db j f).map Prod.fst = db.map Prod.fst := by
  induction db with
  | nil => rfl
  | cons p rest ih =>
    by_cases hp : p.1 = j <;> simp [dbUpdate, hp] <;>
      simpa [dbUpdate] using ih

theorem dbFind?_isSome_of_mem {α : Type} {db : List (Nat × α)} {i : Nat}
    {r : α} (h : (i, r) ∈ db) : (dbFind? db i).isSome = true := by
  induction db with
  | nil => cases h
  | cons p rest ih =>
    rcases List.mem_cons.mp h with h1 | h2
    · subst h1; simp [dbFind?]
    · by_cases hp : p.1 = i <;> simp [dbFind?, hp, ih h2]

theorem dbFind?_isSome_of_keys {α : Type} {db db' : List (Nat × α)} (i : Nat)
    (h : db'.map Prod.fst = db.map Prod.fst) :
    (dbFind? db' i).isSome = (dbFind? db i).isSome := by
  induction db' generalizing db with
  | nil =>
    cases db with
    | nil => rfl
    | cons q qs => simp at h
  | cons p rest ih =>
    cases db with
    | nil => simp at h
    | cons q qs =>
      simp only [List.map_cons, List.cons.injEq] at h
      by_cases hp : p.1 = i
      · have hq : q.1 = i := h.1 ▸ hp
        simp [dbFind?, hp, hq]
      · have hq : ¬ q.1 = i := fun hc => hp (h.1.symm ▸ hc)
        simp [dbFind?, hp, hq, ih h.2]

theorem dbFind?_eq_of_mem_nodup {α : Type} {db : List (Nat × α)} {i : Nat}
    {r : α} (hnd : (db.map Prod.fst).Nodup) (h : (i, r) ∈ db) :
    dbFind? db i = some r := by
  induction db with
  | nil => cases h
  | cons p rest ih =>
    simp only [List.map_cons, List.nodup_cons] at hnd
    rcases List.mem_cons.mp h with h1 | h2
    · subst h1; simp [dbFind?]
    · have hp : ¬ p.1 = i := by
        intro hc
        exact hnd.1 (hc ▸ List.mem_map_of_mem Prod.fst h2)
      simp [dbFind?, hp, ih hnd.2 h2]

theorem markCount_eq_zero {acts : List Action} {i : ReminderId}
    {t : TriggerType} (h : ∀ a ∈ acts, a ≠ Action.markNotified i t) :
    markCount acts i t = 0 := by
  unfold markCount
  rw [List.countP_eq_zero]
  intro a ha
  simpa using h a ha

theorem markCount_append (acts acts' : List Action) (i : ReminderId)
    (t : TriggerType) :
    markCount (acts ++ acts') i t = markCount acts i t + markCount acts' i t :=
  List.countP_append _ _ _

theorem dispatchCount_append (acts acts' : List Action) (i : ReminderId) :
    dispatchCount (acts ++ acts') i =
      dispatchCount acts i + dispatchCount acts' i :=
  List.countP_append _ _ _

theorem dispatchCount_eq_zero {acts : List Action} {i : ReminderId}
    (h : ∀ a ∈ acts, ∀ sid, a ≠ Action.callDispatch i sid) :
    dispatchCount acts i = 0 := by
  unfold dispatchCount
  rw [List.countP_eq_zero]
  intro a ha
  cases a with
  | callDispatch j sid =>
    have := h _ ha sid
    simp only [decide_eq_true_eq]
    intro hji
    exact this (by rw [hji])
  | _ => simp

theorem storedFlag_dbUpdate (db : List (ReminderId × ReminderDoc))
    (id : ReminderId) (f : ReminderDoc → ReminderDoc)
    (hf : ∀ r t, flagOf (f r) t = flagOf r t) (i : ReminderId)
    (t : TriggerType) :
    storedFlag (dbUpdate db id f) i t = storedFlag db i t := by
  unfold storedFlag
  rw [dbFind?_update]
  by_cases h : id = i
  · cases hd : dbFind? db i <;> simp [h, hd, hf]
  · simp [h]

theorem storedNotifiedAt_dbUpdate (db : List (ReminderId × ReminderDoc))
    (id : ReminderId) (f : ReminderDoc → ReminderDoc)
    (hf : ∀ r, (f r).timeNotificationSentAt = r.timeNotificationSentAt ∧
      (f r).locationNotificationSentAt = r.locationNotificationSentAt)
    (i : ReminderId) (t : TriggerType) :
    storedNotifiedAt (dbUpdate db id f) i t = storedNotifiedAt db i t := by
  unfold storedNotifiedAt
  rw [dbFind?_update]
  by_cases h : id = i
  · cases hd : dbFind? db i with
    | none => simp [h, hd]
    | some r => cases t <;> simp [h, hd, (hf r).1, (hf r).2]
  · simp [h]

theorem attemptsOf_dbUpdate (db : List (ReminderId × ReminderDoc))
    (id : ReminderId) (f : ReminderDoc → ReminderDoc)
    (hf : ∀ r, (f r).callAttempts = r.callAttempts) (i : ReminderId) :
    attemptsOf (dbUpdate db id f) i = attemptsOf db i := by
  unfold attemptsOf
  rw [dbFind?_update]
  by_cases h : id = i
  · cases hd : dbFind? db i <;> simp [h, hd, hf]
  · simp [h]

/-! ### Lemmas about `makeReminderCall` -/

theorem makeReminderCall_users (p : Bool) (st : SvcState) (id : ReminderId)
    (now : Int) : (makeReminderCall p st id now).1.users = st.users := by
  unfold makeReminderCall
  cases dbFind? st.reminders id with
  | none => rfl
  | some r =>
    by_cases h2 : 2 ≤ r.callAttempts
    · simp [h2]
    · cases p <;> simp [h2]

theorem makeReminderCall_guard (p : Bool) (st : SvcState) (id : ReminderId)
    (now : Int) :
    (makeReminderCall p st id now).1.activeReminders = st.activeReminders := by
  unfold makeReminderCall
  cases dbFind? st.reminders id with
  | none => rfl
  | some r =>
    by_cases h2 : 2 ≤ r.callAttempts
    · simp [h2]
    · cases p <;> simp [h2]

theorem makeReminderCall_keys (p : Bool) (st : SvcState) (id : ReminderId)
    (now : Int) :
    (makeReminderCall p st id now).1.reminders.map Prod.fst =
      st.reminders.map Prod.fst := by
  unfold makeReminderCall
  cases dbFind? st.reminders id with
  | none => rfl
  | some r =>
    by_cases h2 : 2 ≤ r.callAttempts
    · simp [h2]
    · cases p <;> simp [h2, dbUpdate_keys]

theorem makeReminderCall_flag (p : Bool) (st : SvcState) (id : ReminderId)
    (now : Int) (i : ReminderId) (t : TriggerType) :
    storedFlag (makeReminderCall p st id now).1.reminders i t =
      storedFlag st.reminders i t := by
  unfold makeReminderCall
  cases dbFind? st.reminders id with
  | none => rfl
  | some r =>
    by_cases h2 : 2 ≤ r.callAttempts
    · simp [h2]
    · cases p <;>
      · simp [h2]
        rw [storedFlag_dbUpdate, storedFlag_dbUpdate]
        all_goals intro x t'
        all_goals cases t' <;> rfl

theorem makeReminderCall_notifiedAt (p : Bool) (st : SvcState)
    (id : ReminderId) (now : Int) (i : ReminderId) (t : TriggerType) :
    storedNotifiedAt (makeReminderCall p st id now).1.reminders i t =
      storedNotifiedAt st.reminders i t := by
  unfold makeReminderCall
  cases dbFind? st.reminders id with
  | none => rfl
  | some r =>
    by_cases h2 : 2 ≤ r.callAttempts
    · simp [h2]
    · cases p <;>
      · simp [h2]
        rw [storedNotifiedAt_dbUpdate, storedNotifiedAt_dbUpdate]
        all_goals exact fun x => ⟨rfl, rfl⟩

theorem makeReminderCall_find_ne (p : Bool) (st : SvcState) (id : ReminderId)
    (now : Int) (i : ReminderId) (h : id ≠ i) :
    dbFind? (makeReminderCall p st id now).1.reminders i =
      dbFind? st.reminders i := by
  unfold makeReminderCall
  cases dbFind? st.reminders id with
  | none => rfl
  | some r =>
    by_cases h2 : 2 ≤ r.callAttempts
    · simp [h2]
    · cases p <;> simp [h2, dbFind?_update_ne _ _ h]

theorem makeReminderCall_measure (p : Bool) (st : SvcState) (id : ReminderId)
    (now : Int) (i : ReminderId) :
    dispatchCount (makeReminderCall p st id now).2 i +
        attemptsOf st.reminders i ≤
      attemptsOf (makeReminderCall p st id now).1.reminders i := by
  unfold makeReminderCall
  cases hd : dbFind? st.reminders id with
  | none => simp [dispatchCount]
  | some r =>
    by_cases h2 : 2 ≤ r.callAttempts
    · simp [h2, dispatchCount]
    · by_cases hi : id = i
      · subst hi
        have ha : attemptsOf st.reminders id = r.callAttempts := by
          simp [attemptsOf, hd]
        cases p <;>
          simp [h2, dispatchCount, attemptsOf, dbFind?_update_self, hd, ha]
        all_goals omega
      · cases p <;>
          simp [h2, dispatchCount, attemptsOf, dbFind?_update_ne _ _ hi, hi]

theorem makeReminderCall_attempts_le (p : Bool) (st : SvcState)
    (id : ReminderId) (now : Int) (i : ReminderId)
    (h : attemptsOf st.reminders i ≤ 2) :
    attemptsOf (makeReminderCall p st id now).1.reminders i ≤ 2 := by
  unfold makeReminderCall
  cases hd : dbFind? st.reminders id with
  | none => exact h
  | some r =>
    by_cases h2 : 2 ≤ r.callAttempts
    · simpa [h2] using h
    · by_cases hi : id = i
      · subst hi
        cases p <;>
          · simp [h2, attemptsOf, dbFind?_update_self, hd]
            omega
      · cases p <;>
          · simpa [h2, attemptsOf, dbFind?_update_ne _ _ hi] using h

theorem makeReminderCall_acts (p : Bool) (st : SvcState) (id : ReminderId)
    (now : Int) :
    ∀ a ∈ (makeReminderCall p st id now).2,
      actionReminder a = id ∧ actionTrigger a = none ∧
        isGuardAction a = false := by
  unfold makeReminderCall
  cases dbFind? st.reminders id with
  | none => simp
  | some r =>
    by_cases h2 : 2 ≤ r.callAttempts
    · simp [h2]
    · cases p <;> simp [h2, actionReminder, actionTrigger, isGuardAction]

/-! ### Lemmas about `markReminderNotified` -/

theorem markReminderNotified_users (st : SvcState) (id : ReminderId)
    (t : TriggerType) (now : Int) :
    (markReminderNotified st id t now).users = st.users := rfl

theorem markReminderNotified_guard (st : SvcState) (id : ReminderId)
    (t : TriggerType) (now : Int) :
    (markReminderNotified st id t now).activeReminders = st.activeReminders :=
  rfl

theorem markReminderNotified_keys (st : SvcState) (id : ReminderId)
    (t : TriggerType) (now : Int) :
    (markReminderNotified st id t now).reminders.map Prod.fst =
      st.reminders.map Prod.fst := by
  unfold markReminderNotified
  simp [dbUpdate_keys]

theorem markReminderNotified_find_ne (st : SvcState) (id : ReminderId)
    (t : TriggerType) (now : Int) (i : ReminderId) (h : id ≠ i) :
    dbFind? (markReminderNotified st id t now).reminders i =
      dbFind? st.reminders i := by
  unfold markReminderNotified
  simp [dbFind?_update_ne _ _ h]

theorem markReminderNotified_flag_self (st : SvcState) (id : ReminderId)
    (t : TriggerType) (now : Int)
    (h : (dbFind? st.reminders id).isSome = true) :
    storedFlag (markReminderNotified st id t now).reminders id t = true := by
  unfold markReminderNotified storedFlag
  rw [dbFind?_update_self]
  cases hd : dbFind? st.reminders id with
  | none => rw [hd] at h; simp at h
  | some r => cases t <;> simp [flagOf]

theorem markReminderNotified_notifiedAt_self (st : SvcState) (id : ReminderId)
    (t : TriggerType) (now : Int)
    (h : (dbFind? st.reminders id).isSome = true) :
    storedNotifiedAt (markReminderNotified st id t now).reminders id t =
      some now := by
  unfold markReminderNotified storedNotifiedAt
  rw [dbFind?_update_self]
  cases hd : dbFind? st.reminders id with
  | none => rw [hd] at h; simp at h
  | some r => cases t <;> simp

theorem markReminderNotified_flag_other (st : SvcState) (id : ReminderId)
    (t : TriggerType) (now : Int) (i : ReminderId) (t' : TriggerType)
    (h : ¬(i = id ∧ t' = t)) :
    storedFlag (markReminderNotified st id t now).reminders i t' =
      storedFlag st.reminders i t' := by
  by_cases hi : id = i
  · subst hi
    have ht : ¬ t' = t := fun hc => h ⟨rfl, hc⟩
    unfold markReminderNotified storedFlag
    rw [dbFind?_update_self]
    cases hd : dbFind? st.reminders id with
    | none => simp
    | some r => cases t <;> cases t' <;> simp_all [flagOf]
  · unfold markReminderNotified storedFlag
    rw [dbFind?_update_ne _ _ hi]

theorem markReminderNotified_flag_mono (st : SvcState) (id : ReminderId)
    (t : TriggerType) (now : Int) (i : ReminderId) (t' : TriggerType)
    (h : storedFlag st.reminders i t' = true) :
    storedFlag (markReminderNotified st id t now).reminders i t' = true := by
  by_cases hc : i = id ∧ t' = t
  · rcases hc with ⟨rfl, rfl⟩
    apply markReminderNotified_flag_self
    unfold storedFlag at h
    cases hd : dbFind? st.reminders i with
    | none => rw [hd] at h; simp at h
    | some r => simp [hd]
  · rw [markReminderNotified_flag_other _ _ _ _ _ _ hc]
    exact h

theorem markReminderNotified_attempts (st : SvcState) (id : ReminderId)
    (t : TriggerType) (now : Int) (i : ReminderId) :
    attemptsOf (markReminderNotified st id t now).reminders i =
      attemptsOf st.reminders i := by
  unfold markReminderNotified attemptsOf
  cases t <;>
  · rw [dbFind?_update]
    by_cases h : id = i
    · cases hd : dbFind? st.reminders i <;> simp [h, hd]
    · simp [h]

/-! ### Lemmas about `processReminder` -/

theorem processReminder_none (env : Env) (st : SvcState) (id : ReminderId)
    (reminder : ReminderDoc) (trigger : TriggerType) (now : Int)
    (h : dbFind? st.users reminder.user = none) :
    processReminder env st id reminder trigger now = (st, []) := by
  unfold processReminder
  rw [h]

theorem processReminder_users (env : Env) (st : SvcState) (id : ReminderId)
    (reminder : ReminderDoc) (trigger : TriggerType) (now : Int) :
    (processReminder env st id reminder trigger now).1.users = st.users := by
  unfold processReminder
  cases dbFind? st.users reminder.user with
  | none => rfl
  | some user =>
    cases hph : user.twilioPhoneNumber.isSome <;>
      simp [hph, markReminderNotified_users, makeReminderCall_users]

theorem processReminder_guard (env : Env) (st : SvcState) (id : ReminderId)
    (reminder : ReminderDoc) (trigger : TriggerType) (now : Int) :
    (processReminder env st id reminder trigger now).1.activeReminders =
      st.activeReminders := by
  unfold processReminder
  cases dbFind? st.users reminder.user with
  | none => rfl
  | some user =>
    cases hph : user.twilioPhoneNumber.isSome <;>
      simp [hph, markReminderNotified_guard, makeReminderCall_guard]

theorem processReminder_keys (env : Env) (st : SvcState) (id : ReminderId)
    (reminder : ReminderDoc) (trigger : TriggerType) (now : Int) :
    (processReminder env st id reminder trigger now).1.reminders.map Prod.fst =
      st.reminders.map Prod.fst := by
  unfold processReminder
  cases dbFind? st.users reminder.user with
  | none => rfl
  | some user =>
    cases hph : user.twilioPhoneNumber.isSome <;>
      simp [hph, markReminderNotified_keys, makeReminderCall_keys]

theorem processReminder_find_ne (env : Env) (st : SvcState) (id : ReminderId)
    (reminder : ReminderDoc) (trigger : TriggerType) (now : Int)
    (i : ReminderId) (h : id ≠ i) :
    dbFind? (processReminder env st id reminder trigger now).1.reminders i =
      dbFind? st.reminders i := by
  unfold processReminder
  cases dbFind? st.users reminder.user with
  | none => rfl
  | some user =>
    cases hph : user.twilioPhoneNumber.isSome <;>
      simp [hph, markReminderNotified_find_ne _ _ _ _ _ h,
        makeReminderCall_find_ne _ _ _ _ _ h]

theorem processReminder_flag_other (env : Env) (st : SvcState)
    (id : ReminderId) (reminder : ReminderDoc) (trigger : TriggerType)
    (now : Int) (i : ReminderId) (t' : TriggerType)
    (h : ¬(i = id ∧ t' = trigger)) :
    storedFlag (processReminder env st id reminder trigger now).1.reminders i t'
      = storedFlag st.reminders i t' := by
  unfold processReminder
  cases dbFind? st.users reminder.user with
  | none => rfl
  | some user =>
    cases hph : user.twilioPhoneNumber.isSome <;>
      simp [hph, markReminderNotified_flag_other _ _ _ _ _ _ h,
        makeReminderCall_flag]

theorem processReminder_flag_mono (env : Env) (st : SvcState)
    (id : ReminderId) (reminder : ReminderDoc) (trigger : TriggerType)
    (now : Int) (i : ReminderId) (t' : TriggerType)
    (h : storedFlag st.reminders i t' = true) :
    storedFlag (processReminder env st id reminder trigger now).1.reminders i t'
      = true := by
  unfold processReminder
  cases dbFind? st.users reminder.user with
  | none => exact h
  | some user =>
    cases hph : user.twilioPhoneNumber.isSome <;>
    · simp only [hph, Bool.false_eq_true, if_false, if_true, ite_true, ite_false]
      exact markReminderNotified_flag_mono _ _ _ _ _ _
        (by simp [makeReminderCall_flag, h])

theorem processReminder_flag_self (env : Env) (st : SvcState)
    (id : ReminderId) (reminder : ReminderDoc) (trigger : TriggerType)
    (now : Int) (hpres : (dbFind? st.reminders id).isSome = true)
    (hu : (dbFind? st.users reminder.user).isSome = true) :
    storedFlag (processReminder env st id reminder trigger now).1.reminders id
      trigger = true := by
  unfold processReminder
  cases hdu : dbFind? st.users reminder.user with
  | none => rw [hdu] at hu; simp at hu
  | some user =>
    cases hph : user.twilioPhoneNumber.isSome <;>
    · simp only [hph, Bool.false_eq_true, if_false, if_true, ite_true, ite_false]
      apply markReminderNotified_flag_self
      first
      | exact hpres
      | rw [dbFind?_isSome_of_keys id (makeReminderCall_keys _ _ _ _)]
        exact hpres

theorem processReminder_notifiedAt_self (env : Env) (st : SvcState)
    (id : ReminderId) (reminder : ReminderDoc) (trigger : TriggerType)
    (now : Int) (hpres : (dbFind? st.reminders id).isSome = true)
    (hu : (dbFind? st.users reminder.user).isSome = true) :
    storedNotifiedAt (processReminder env st id
      reminder trigger now).1.reminders id trigger = some now := by
  unfold processReminder
  cases hdu : dbFind? st.users reminder.user with
  | none => rw [hdu] at hu; simp at hu
  | some user =>
    cases hph : user.twilioPhoneNumber.isSome <;>
    · simp only [hph, Bool.false_eq_true, if_false, if_true, ite_true, ite_false]
      apply markReminderNotified_notifiedAt_self
      first
      | exact hpres
      | rw [dbFind?_isSome_of_keys id (makeReminderCall_keys _ _ _ _)]
        exact hpres

theorem processReminder_attempts_le (env : Env) (st : SvcState)
    (id : ReminderId) (reminder : ReminderDoc) (trigger : TriggerType)
    (now : Int) (i : ReminderId) (h : attemptsOf st.reminders i ≤ 2) :
    attemptsOf (processReminder env st id reminder trigger now).1.reminders i
      ≤ 2 := by
  unfold processReminder
  cases dbFind? st.users reminder.user with
  | none => exact h
  | some user =>
    cases hph : user.twilioPhoneNumber.isSome <;>
    · simp only [hph, Bool.false_eq_true, if_false, if_true, ite_true, ite_false]
      rw [markReminderNotified_attempts]
      first
      | exact h
      | exact makeReminderCall_attempts_le _ _ _ _ _ h

theorem processReminder_attempts_measure (env : Env) (st : SvcState)
    (id : ReminderId) (reminder : ReminderDoc) (trigger : TriggerType)
    (now : Int) (i : ReminderId) :
    dispatchCount (processReminder env st id reminder trigger now).2 i +
        attemptsOf st.reminders i ≤
      attemptsOf (processReminder env st id reminder trigger now).1.reminders i
      := by
  unfold processReminder
  cases dbFind? st.users reminder.user with
  | none => simp [dispatchCount]
  | some user =>
    dsimp only
    have hemail : dispatchCount
        (if env.emailOk = true then [Action.emailDispatch id trigger] else [])
        i = 0 := by
      cases henv : env.emailOk <;> simp [dispatchCount]
    have htail : dispatchCount
        [Action.pushDispatch reminder.user id trigger,
         Action.markNotified id trigger] i = 0 := by
      simp [dispatchCount]
    cases hph : user.twilioPhoneNumber.isSome
    · rw [if_neg (show ¬(false = true) by simp)]
      rw [markReminderNotified_attempts, dispatchCount_append,
        dispatchCount_append, hemail, htail]
      simp [dispatchCount]
    · rw [if_pos (show true = true from rfl)]
      rw [markReminderNotified_attempts, dispatchCount_append,
        dispatchCount_append, hemail, htail]
      have hm := makeReminderCall_measure env.placeOk st id now i
      omega

theorem processReminder_acts (env : Env) (st : SvcState) (id : ReminderId)
    (reminder : ReminderDoc) (trigger : TriggerType) (now : Int) :
    ∀ a ∈ (processReminder env st id reminder trigger now).2,
      actionReminder a = id ∧
        (actionTrigger a = none ∨ actionTrigger a = some trigger) ∧
        isGuardAction a = false := by
  unfold processReminder
  cases dbFind? st.users reminder.user with
  | none => simp
  | some user =>
    dsimp only
    intro a ha
    simp only [List.mem_append, List.mem_cons, List.mem_singleton,
      List.not_mem_nil, or_false] at ha
    rcases ha with (ha | ha) | (rfl | rfl)
    · cases henv : env.emailOk <;> rw [henv] at ha <;> simp at ha
      subst ha
      simp [actionReminder, actionTrigger, isGuardAction]
    · cases hph : user.twilioPhoneNumber.isSome <;> rw [hph] at ha
      · simp at ha
      · rcases makeReminderCall_acts env.placeOk st id now a
          (by simpa using ha) with ⟨h1, h2, h3⟩
        exact ⟨h1, Or.inl h2, h3⟩
    · simp [actionReminder, actionTrigger, isGuardAction]
    · simp [actionReminder, actionTrigger, isGuardAction]

theorem processReminder_markCount_other (env : Env) (st : SvcState)
    (id : ReminderId) (reminder : ReminderDoc) (trigger : TriggerType)
    (now : Int) (i : ReminderId) (t' : TriggerType)
    (h : ¬(i = id ∧ t' = trigger)) :
    markCount (processReminder env st id reminder trigger now).2 i t' = 0 := by
  apply markCount_eq_zero
  intro a ha hc
  rcases processReminder_acts env st id reminder trigger now a ha
    with ⟨h1, h2, -⟩
  subst hc
  simp only [actionReminder] at h1
  rcases h2 with h2 | h2 <;> simp only [actionTrigger, Option.some.injEq] at h2
  · cases h2
  · exact h ⟨h1, h2⟩

theorem processReminder_mark_measure (env : Env) (st : SvcState)
    (id : ReminderId) (reminder : ReminderDoc) (trigger : TriggerType)
    (now : Int) (hpres : (dbFind? st.reminders id).isSome = true) :
    markCount (processReminder env st id reminder trigger now).2 id trigger ≤
      flagVal (processReminder env st id reminder trigger now).1.reminders id
        trigger := by
  cases hdu : dbFind? st.users reminder.user with
  | none =>
    rw [processReminder_none env st id reminder trigger now hdu]
    simp [markCount]
  | some user =>
    have hu' : (dbFind? st.users reminder.user).isSome = true := by
      rw [hdu]; rfl
    have hflag :=
      processReminder_flag_self env st id reminder trigger now hpres hu'
    unfold flagVal
    rw [hflag, if_pos rfl]
    unfold processReminder
    rw [hdu]
    dsimp only
    rw [markCount_append, markCount_append]
    have h1 : markCount
        (if env.emailOk = true then [Action.emailDispatch id trigger] else [])
        id trigger = 0 := by
      cases henv : env.emailOk <;> simp [markCount]
    have h3 : markCount
        [Action.pushDispatch reminder.user id trigger,
         Action.markNotified id trigger] id trigger = 1 := by
      simp [markCount]
    cases hph : user.twilioPhoneNumber.isSome
    · rw [if_neg (show ¬(false = true) by simp)]
      rw [h1, h3]
      simp [markCount]
    · rw [if_pos (show true = true from rfl)]
      have h2 : markCount (makeReminderCall env.placeOk st id now).2 id trigger
          = 0 := by
        apply markCount_eq_zero
        intro a ha hc
        rcases makeReminderCall_acts env.placeOk st id now a ha with ⟨-, h2, -⟩
        subst hc
        simp [actionTrigger] at h2
      rw [h1, h2, h3]

theorem processReminder_push_mem (env : Env) (st : SvcState) (id : ReminderId)
    (reminder : ReminderDoc) (trigger : TriggerType) (now : Int)
    (user : UserDoc) (hu : dbFind? st.users reminder.user = some user) :
    Action.pushDispatch reminder.user id trigger ∈
      (processReminder env st id reminder trigger now).2 := by
  unfold processReminder
  rw [hu]
  dsimp only
  simp

theorem processReminder_callDispatch_mem (env : Env) (st : SvcState)
    (id : ReminderId) (reminder : ReminderDoc) (trigger : TriggerType)
    (now : Int) (user : UserDoc) (r : ReminderDoc)
    (hu : dbFind? st.users reminder.user = some user)
    (hph : user.twilioPhoneNumber.isSome = true)
    (hr : dbFind? st.reminders id = some r)
    (hatt : r.callAttempts < 2)
    (hplace : env.placeOk = true) :
    Action.callDispatch id st.nextSid ∈
      (processReminder env st id reminder trigger now).2 := by
  unfold processReminder
  rw [hu]
  dsimp only
  rw [hph, if_pos (show true = true from rfl)]
  simp only [List.mem_append]
  refine Or.inl (Or.inr ?_)
  unfold makeReminderCall
  rw [hr]
  dsimp only
  rw [if_neg (by omega), hplace, if_pos (show true = true from rfl)]
  simp

theorem processReminder_state_email_indep (near near' : Coords → Coords → Bool)
    (e e' p : Bool) (st : SvcState) (id : ReminderId)
    (reminder : ReminderDoc) (trigger : TriggerType) (now : Int) :
    (processReminder ⟨near, e, p⟩ st id reminder trigger now).1 =
      (processReminder ⟨near', e', p⟩ st id reminder trigger now).1 := by
  unfold processReminder
  cases dbFind? st.users reminder.user with
  | none => rfl
  | some user => rfl

/-! ### Lemmas about the per-candidate loop bodies -/

theorem markCount_cons (a : Action) (acts : List Action) (i : ReminderId)
    (t : TriggerType) :
    markCount (a :: acts) i t =
      markCount acts i t + (if a = Action.markNotified i t then 1 else 0) := by
  unfold markCount
  rw [List.countP_cons]
  by_cases h : a = Action.markNotified i t <;> simp [h]

theorem markCount_nil (i : ReminderId) (t : TriggerType) :
    markCount [] i t = 0 := rfl

theorem dispatchCount_nil (i : ReminderId) : dispatchCount [] i = 0 := rfl

theorem dispatchCount_cons (a : Action) (acts : List Action) (i : ReminderId) :
    dispatchCount (a :: acts) i =
      dispatchCount acts i +
        (match a with
         | Action.callDispatch j _ => if j = i then 1 else 0
         | _ => 0) := by
  unfold dispatchCount
  rw [List.countP_cons]
  cases a <;> simp

theorem timeCandidateStep_keys (env : Env) (now : Int) (st : SvcState)
    (c : ReminderId × ReminderDoc) :
    (timeCandidateStep env now st c).1.reminders.map Prod.fst =
      st.reminders.map Prod.fst := by
  unfold timeCandidateStep
  by_cases hg : (TriggerType.time, c.1) ∈ st.activeReminders
  · rw [if_pos hg]
  · rw [if_neg hg]
    exact processReminder_keys env _ c.1 c.2 TriggerType.time now

theorem timeCandidateStep_find_ne (env : Env) (now : Int) (st : SvcState)
    (c : ReminderId × ReminderDoc) (i : ReminderId) (h : c.1 ≠ i) :
    dbFind? (timeCandidateStep env now st c).1.reminders i =
      dbFind? st.reminders i := by
  unfold timeCandidateStep
  by_cases hg : (TriggerType.time, c.1) ∈ st.activeReminders
  · rw [if_pos hg]
  · rw [if_neg hg]
    exact processReminder_find_ne env _ c.1 c.2 TriggerType.time now i h

theorem timeCandidateStep_markCount_other (env : Env) (now : Int)
    (st : SvcState) (c : ReminderId × ReminderDoc) (i : ReminderId)
    (t : TriggerType) (h : ¬(i = c.1 ∧ t = TriggerType.time)) :
    markCount (timeCandidateStep env now st c).2 i t = 0 := by
  unfold timeCandidateStep
  by_cases hg : (TriggerType.time, c.1) ∈ st.activeReminders
  · rw [if_pos hg]
    simp [markCount]
  · rw [if_neg hg]
    dsimp only
    have hpr := processReminder_markCount_other env
      { st with activeReminders := (TriggerType.time, c.1) :: st.activeReminders }
      c.1 c.2 TriggerType.time now i t h
    simp [markCount_append, markCount_cons, markCount_nil, hpr]

theorem timeCandidateStep_mark_measure (env : Env) (now : Int) (st : SvcState)
    (c : ReminderId × ReminderDoc)
    (hpres : (dbFind? st.reminders c.1).isSome = true) :
    markCount (timeCandidateStep env now st c).2 c.1 TriggerType.time ≤
      flagVal (timeCandidateStep env now st c).1.reminders c.1
        TriggerType.time := by
  unfold timeCandidateStep
  by_cases hg : (TriggerType.time, c.1) ∈ st.activeReminders
  · rw [if_pos hg]
    simp [markCount]
  · rw [if_neg hg]
    dsimp only
    have hm := processReminder_mark_measure env
      { st with activeReminders := (TriggerType.time, c.1) :: st.activeReminders }
      c.1 c.2 TriggerType.time now hpres
    simpa [markCount_append, markCount_cons, markCount_nil] using hm

theorem timeCandidateStep_acts (env : Env) (now : Int) (st : SvcState)
    (c : ReminderId × ReminderDoc) :
    ∀ a ∈ (timeCandidateStep env now st c).2,
      actionReminder a = c.1 ∧
        (actionTrigger a = none ∨ actionTrigger a = some TriggerType.time) := by
  unfold timeCandidateStep
  by_cases hg : (TriggerType.time, c.1) ∈ st.activeReminders
  · rw [if_pos hg]
    simp [actionReminder, actionTrigger]
  · rw [if_neg hg]
    dsimp only
    intro a ha
    simp only [List.mem_append, List.mem_cons, List.mem_singleton,
      List.not_mem_nil, or_false] at ha
    rcases ha with (rfl | ha) | rfl
    · simp [actionReminder, actionTrigger]
    · rcases processReminder_acts env _ c.1 c.2 TriggerType.time now a ha
        with ⟨h1, h2, -⟩
      exact ⟨h1, h2⟩
    · simp [actionReminder, actionTrigger]

theorem timeCandidateStep_attempts_measure (env : Env) (now : Int)
    (st : SvcState) (c : ReminderId × ReminderDoc) (i : ReminderId) :
    dispatchCount (timeCandidateStep env now st c).2 i +
        attemptsOf st.reminders i ≤
      attemptsOf (timeCandidateStep env now st c).1.reminders i := by
  unfold timeCandidateStep
  by_cases hg : (TriggerType.time, c.1) ∈ st.activeReminders
  · rw [if_pos hg]
    simp [dispatchCount]
  · rw [if_neg hg]
    dsimp only
    have hm := processReminder_attempts_measure env
      { st with activeReminders := (TriggerType.time, c.1) :: st.activeReminders }
      c.1 c.2 TriggerType.time now i
    simp only [dispatchCount_append, dispatchCount_cons, dispatchCount_nil]
    dsimp only at hm
    omega

theorem timeCandidateStep_attempts_le (env : Env) (now : Int) (st : SvcState)
    (c : ReminderId × ReminderDoc) (i : ReminderId)
    (h : attemptsOf st.reminders i ≤ 2) :
    attemptsOf (timeCandidateStep env now st c).1.reminders i ≤ 2 := by
  unfold timeCandidateStep
  by_cases hg : (TriggerType.time, c.1) ∈ st.activeReminders
  · rw [if_pos hg]
    exact h
  · rw [if_neg hg]
    exact processReminder_attempts_le env _ c.1 c.2 TriggerType.time now i h

theorem locationCandidateStep_keys (env : Env) (now : Int) (st : SvcState)
    (c : ReminderId × ReminderDoc) :
    (locationCandidateStep env now st c).1.reminders.map Prod.fst =
      st.reminders.map Prod.fst := by
  unfold locationCandidateStep
  by_cases hn : isUserNearReminder env st c.2
  · rw [if_pos hn]
    exact processReminder_keys env st c.1 c.2 TriggerType.location now
  · rw [if_neg hn]

theorem locationCandidateStep_find_ne (env : Env) (now : Int) (st : SvcState)
    (c : ReminderId × ReminderDoc) (i : ReminderId) (h : c.1 ≠ i) :
    dbFind? (locationCandidateStep env now st c).1.reminders i =
      dbFind? st.reminders i := by
  unfold locationCandidateStep
  by_cases hn : isUserNearReminder env st c.2
  · rw [if_pos hn]
    exact processReminder_find_ne env st c.1 c.2 TriggerType.location now i h
  · rw [if_neg hn]

theorem locationCandidateStep_markCount_other (env : Env) (now : Int)
    (st : SvcState) (c : ReminderId × ReminderDoc) (i : ReminderId)
    (t : TriggerType) (h : ¬(i = c.1 ∧ t = TriggerType.location)) :
    markCount (locationCandidateStep env now st c).2 i t = 0 := by
  unfold locationCandidateStep
  by_cases hn : isUserNearReminder env st c.2
  · rw [if_pos hn]
    exact processReminder_markCount_other env st c.1 c.2 TriggerType.location
      now i t h
  · rw [if_neg hn]
    simp [markCount]

theorem locationCandidateStep_mark_measure (env : Env) (now : Int)
    (st : SvcState) (c : ReminderId × ReminderDoc)
    (hpres : (dbFind? st.reminders c.1).isSome = true) :
    markCount (locationCandidateStep env now st c).2 c.1 TriggerType.location ≤
      flagVal (locationCandidateStep env now st c).1.reminders c.1
        TriggerType.location := by
  unfold locationCandidateStep
  by_cases hn : isUserNearReminder env st c.2
  · rw [if_pos hn]
    exact processReminder_mark_measure env st c.1 c.2 TriggerType.location now
      hpres
  · rw [if_neg hn]
    simp [markCount]

theorem locationCandidateStep_acts (env : Env) (now : Int) (st : SvcState)
    (c : ReminderId × ReminderDoc) :
    ∀ a ∈ (locationCandidateStep env now st c).2,
      actionReminder a = c.1 ∧
        (actionTrigger a = none ∨
          actionTrigger a = some TriggerType.location) := by
  unfold locationCandidateStep
  by_cases hn : isUserNearReminder env st c.2
  · rw [if_pos hn]
    intro a ha
    rcases processReminder_acts env st c.1 c.2 TriggerType.location now a ha
      with ⟨h1, h2, -⟩
    exact ⟨h1, h2⟩
  · rw [if_neg hn]
    simp

theorem locationCandidateStep_guardFree (env : Env) (now : Int) (st : SvcState)
    (c : ReminderId × ReminderDoc) :
    ∀ a ∈ (locationCandidateStep env now st c).2, isGuardAction a = false := by
  unfold locationCandidateStep
  by_cases hn : isUserNearReminder env st c.2
  · rw [if_pos hn]
    intro a ha
    exact (processReminder_acts env st c.1 c.2 TriggerType.location now a
      ha).2.2
  · rw [if_neg hn]
    simp

theorem locationCandidateStep_attempts_measure (env : Env) (now : Int)
    (st : SvcState) (c : ReminderId × ReminderDoc) (i : ReminderId) :
    dispatchCount (locationCandidateStep env now st c).2 i +
        attemptsOf st.reminders i ≤
      attemptsOf (locationCandidateStep env now st c).1.reminders i := by
  unfold locationCandidateStep
  by_cases hn : isUserNearReminder env st c.2
  · rw [if_pos hn]
    exact processReminder_attempts_measure env st c.1 c.2 TriggerType.location
      now i
  · rw [if_neg hn]
    simp [dispatchCount]

theorem locationCandidateStep_attempts_le (env : Env) (now : Int)
    (st : SvcState) (c : ReminderId × ReminderDoc) (i : ReminderId)
    (h : attemptsOf st.reminders i ≤ 2) :
    attemptsOf (locationCandidateStep env now st c).1.reminders i ≤ 2 := by
  unfold locationCandidateStep
  by_cases hn : isUserNearReminder env st c.2
  · rw [if_pos hn]
    exact processReminder_attempts_le env st c.1 c.2 TriggerType.location now
      i h
  · rw [if_neg hn]
    exact h

theorem locationUpdateCandidateStep_keys (env : Env) (loc : Coords) (now : Int)
    (st : SvcState) (c : ReminderId × ReminderDoc) :
    (locationUpdateCandidateStep env loc now st c).1.reminders.map Prod.fst =
      st.reminders.map Prod.fst := by
  unfold locationUpdateCandidateStep
  cases c.2.coordinates with
  | none => rfl
  | some rc =>
    dsimp only
    by_cases hn : env.near loc rc = true
    · rw [if_pos hn]
      by_cases hg : (TriggerType.location, c.1) ∈ st.activeReminders
      · rw [if_pos hg]
      · rw [if_neg hg]
        exact processReminder_keys env _ c.1 c.2 TriggerType.location now
    · rw [if_neg hn]

theorem locationUpdateCandidateStep_find_ne (env : Env) (loc : Coords)
    (now : Int) (st : SvcState) (c : ReminderId × ReminderDoc) (i : ReminderId)
    (h : c.1 ≠ i) :
    dbFind? (locationUpdateCandidateStep env loc now st c).1.reminders i =
      dbFind? st.reminders i := by
  unfold locationUpdateCandidateStep
  cases c.2.coordinates with
  | none => rfl
  | some rc =>
    dsimp only
    by_cases hn : env.near loc rc = true
    · rw [if_pos hn]
      by_cases hg : (TriggerType.location, c.1) ∈ st.activeReminders
      · rw [if_pos hg]
      · rw [if_neg hg]
        exact processReminder_find_ne env _ c.1 c.2 TriggerType.location now i h
    · rw [if_neg hn]

theorem locationUpdateCandidateStep_markCount_other (env : Env) (loc : Coords)
    (now : Int) (st : SvcState) (c : ReminderId × ReminderDoc) (i : ReminderId)
    (t : TriggerType) (h : ¬(i = c.1 ∧ t = TriggerType.location)) :
    markCount (locationUpdateCandidateStep env loc now st c).2 i t = 0 := by
  unfold locationUpdateCandidateStep
  cases c.2.coordinates with
  | none => simp [markCount]
  | some rc =>
    dsimp only
    by_cases hn : env.near loc rc = true
    · rw [if_pos hn]
      by_cases hg : (TriggerType.location, c.1) ∈ st.activeReminders
      · rw [if_pos hg]
        simp [markCount]
      · rw [if_neg hg]
        dsimp only
        have hpr := processReminder_markCount_other env
          { st with activeReminders :=
              (TriggerType.location, c.1) :: st.activeReminders }
          c.1 c.2 TriggerType.location now i t h
        simp [markCount_append, markCount_cons, markCount_nil, hpr]
    · rw [if_neg hn]
      simp [markCount]

theorem locationUpdateCandidateStep_mark_measure (env : Env) (loc : Coords)
    (now : Int) (st : SvcState) (c : ReminderId × ReminderDoc)
    (hpres : (dbFind? st.reminders c.1).isSome = true) :
    markCount (locationUpdateCandidateStep env loc now st c).2 c.1
        TriggerType.location ≤
      flagVal (locationUpdateCandidateStep env loc now st c).1.reminders c.1
        TriggerType.location := by
  unfold locationUpdateCandidateStep
  cases c.2.coordinates with
  | none => simp [markCount]
  | some rc =>
    dsimp only
    by_cases hn : env.near loc rc = true
    · rw [if_pos hn]
      by_cases hg : (TriggerType.location, c.1) ∈ st.activeReminders
      · rw [if_pos hg]
        simp [markCount]
      · rw [if_neg hg]
        dsimp only
        have hm := processReminder_mark_measure env
          { st with activeReminders :=
              (TriggerType.location, c.1) :: st.activeReminders }
          c.1 c.2 TriggerType.location now hpres
        simpa [markCount_append, markCount_cons, markCount_nil] using hm
    · rw [if_neg hn]
      simp [markCount]

theorem locationUpdateCandidateStep_acts (env : Env) (loc : Coords) (now : Int)
    (st : SvcState) (c : ReminderId × ReminderDoc) :
    ∀ a ∈ (locationUpdateCandidateStep env loc now st c).2,
      actionReminder a = c.1 ∧
        (actionTrigger a = none ∨
          actionTrigger a = some TriggerType.location) := by
  unfold locationUpdateCandidateStep
  cases c.2.coordinates with
  | none => simp
  | some rc =>
    dsimp only
    by_cases hn : env.near loc rc = true
    · rw [if_pos hn]
      by_cases hg : (TriggerType.location, c.1) ∈ st.activeReminders
      · rw [if_pos hg]
        simp
      · rw [if_neg hg]
        dsimp only
        intro a ha
        simp only [List.mem_append, List.mem_cons, List.mem_singleton,
          List.not_mem_nil, or_false] at ha
        rcases ha with (rfl | ha) | rfl
        · simp [actionReminder, actionTrigger]
        · rcases processReminder_acts env _ c.1 c.2 TriggerType.location now a
            ha with ⟨h1, h2, -⟩
          exact ⟨h1, h2⟩
        · simp [actionReminder, actionTrigger]
    · rw [if_neg hn]
      simp

theorem locationUpdateCandidateStep_attempts_measure (env : Env) (loc : Coords)
    (now : Int) (st : SvcState) (c : ReminderId × ReminderDoc)
    (i : ReminderId) :
    dispatchCount (locationUpdateCandidateStep env loc now st c).2 i +
        attemptsOf st.reminders i ≤
      attemptsOf (locationUpdateCandidateStep env loc now st c).1.reminders i
      := by
  unfold locationUpdateCandidateStep
  cases c.2.coordinates with
  | none => simp [dispatchCount]
  | some rc =>
    dsimp only
    by_cases hn : env.near loc rc = true
    · rw [if_pos hn]
      by_cases hg : (TriggerType.location, c.1) ∈ st.activeReminders
      · rw [if_pos hg]
        simp [dispatchCount]
      · rw [if_neg hg]
        dsimp only
        have hm := processReminder_attempts_measure env
          { st with activeReminders :=
              (TriggerType.location, c.1) :: st.activeReminders }
          c.1 c.2 TriggerType.location now i
        simp only [dispatchCount_append, dispatchCount_cons, dispatchCount_nil]
        dsimp only at hm
        omega
    · rw [if_neg hn]
      simp [dispatchCount]

theorem locationUpdateCandidateStep_attempts_le (env : Env) (loc : Coords)
    (now : Int) (st : SvcState) (c : ReminderId × ReminderDoc) (i : ReminderId)
    (h : attemptsOf st.reminders i ≤ 2) :
    attemptsOf (locationUpdateCandidateStep env loc now st c).1.reminders i
      ≤ 2 := by
  unfold locationUpdateCandidateStep
  cases c.2.coordinates with
  | none => exact h
  | some rc =>
    dsimp only
    by_cases hn : env.near loc rc = true
    · rw [if_pos hn]
      by_cases hg : (TriggerType.location, c.1) ∈ st.activeReminders
      · rw [if_pos hg]
        exact h
      · rw [if_neg hg]
        exact processReminder_attempts_le env _ c.1 c.2 TriggerType.location
          now i h
    · rw [if_neg hn]
      exact h

/-! ### Congruence helpers and per-candidate flag preservation -/

theorem storedFlag_congr {db db' : List (ReminderId × ReminderDoc)}
    {id : ReminderId} (t : TriggerType)
    (h : dbFind? db' id = dbFind? db id) :
    storedFlag db' id t = storedFlag db id t := by
  unfold storedFlag
  rw [h]

theorem flagVal_congr {db db' : List (ReminderId × ReminderDoc)}
    {id : ReminderId} (t : TriggerType)
    (h : dbFind? db' id = dbFind? db id) :
    flagVal db' id t = flagVal db id t := by
  unfold flagVal
  rw [storedFlag_congr t h]

theorem attemptsOf_congr {db db' : List (ReminderId × ReminderDoc)}
    {id : ReminderId} (h : dbFind? db' id = dbFind? db id) :
    attemptsOf db' id = attemptsOf db id := by
  unfold attemptsOf
  rw [h]

theorem forall_ne_mark_of_markCount_zero {acts : List Action} {i : ReminderId}
    {t : TriggerType} (h : markCount acts i t = 0) :
    ∀ a ∈ acts, a ≠ Action.markNotified i t := by
  unfold markCount at h
  rw [List.countP_eq_zero] at h
  intro a ha
  have := h a ha
  simpa using this

theorem triggerActionFor_false_of_id {a : Action} {id : ReminderId}
    (t : TriggerType) (h : ¬ actionReminder a = id) :
    triggerActionFor a id t = false := by
  simp [triggerActionFor, h]

theorem triggerActionFor_false_of_trigger {a : Action} {id : ReminderId}
    {t : TriggerType} (h : ¬ actionTrigger a = some t) :
    triggerActionFor a id t = false := by
  simp [triggerActionFor, h]

theorem timeCandidateStep_flag_other (env : Env) (now : Int) (st : SvcState)
    (c : ReminderId × ReminderDoc) (i : ReminderId) (t : TriggerType)
    (h : ¬(i = c.1 ∧ t = TriggerType.time)) :
    storedFlag (timeCandidateStep env now st c).1.reminders i t =
      storedFlag st.reminders i t := by
  unfold timeCandidateStep
  by_cases hg : (TriggerType.time, c.1) ∈ st.activeReminders
  · rw [if_pos hg]
  · rw [if_neg hg]
    exact processReminder_flag_other env _ c.1 c.2 TriggerType.time now i t h

theorem locationCandidateStep_flag_other (env : Env) (now : Int)
    (st : SvcState) (c : ReminderId × ReminderDoc) (i : ReminderId)
    (t : TriggerType) (h : ¬(i = c.1 ∧ t = TriggerType.location)) :
    storedFlag (locationCandidateStep env now st c).1.reminders i t =
      storedFlag st.reminders i t := by
  unfold locationCandidateStep
  by_cases hn : isUserNearReminder env st c.2
  · rw [if_pos hn]
    exact processReminder_flag_other env st c.1 c.2 TriggerType.location now
      i t h
  · rw [if_neg hn]

theorem locationUpdateCandidateStep_flag_other (env : Env) (loc : Coords)
    (now : Int) (st : SvcState) (c : ReminderId × ReminderDoc)
    (i : ReminderId) (t : TriggerType)
    (h : ¬(i = c.1 ∧ t = TriggerType.location)) :
    storedFlag (locationUpdateCandidateStep env loc now st c).1.reminders i t =
      storedFlag st.reminders i t := by
  unfold locationUpdateCandidateStep
  cases c.2.coordinates with
  | none => rfl
  | some rc =>
    dsimp only
    by_cases hn : env.near loc rc = true
    · rw [if_pos hn]
      by_cases hg : (TriggerType.location, c.1) ∈ st.activeReminders
      · rw [if_pos hg]
      · rw [if_neg hg]
        exact processReminder_flag_other env _ c.1 c.2 TriggerType.location
          now i t h
    · rw [if_neg hn]

/-! ### Generic lemmas about `runCandidates` -/

theorem runCandidates_inv
    (f : SvcState → ReminderId × ReminderDoc → SvcState × List Action)
    (P : SvcState → Prop) (Q : Action → Prop) :
    ∀ (cs : List (ReminderId × ReminderDoc)) (st : SvcState),
      (∀ s c, c ∈ cs → P s → P (f s c).1 ∧ ∀ a ∈ (f s c).2, Q a) →
      P st →
      P (runCandidates f st cs).1 ∧ ∀ a ∈ (runCandidates f st cs).2, Q a := by
  intro cs
  induction cs with
  | nil =>
    intro st _ hP
    exact ⟨hP, by simp [runCandidates]⟩
  | cons c rest ih =>
    intro st h hP
    have h1 := h st c (List.mem_cons_self _ _) hP
    have h2 := ih (f st c).1
      (fun s c' hc' => h s c' (List.mem_cons_of_mem _ hc')) h1.1
    refine ⟨h2.1, ?_⟩
    intro a ha
    simp only [runCandidates, List.mem_append] at ha
    rcases ha with ha | ha
    · exact h1.2 a ha
    · exact h2.2 a ha

theorem runCandidates_measure
    (f : SvcState → ReminderId × ReminderDoc → SvcState × List Action)
    (m : SvcState → Nat) (p : Action → Bool) :
    ∀ (cs : List (ReminderId × ReminderDoc)) (st : SvcState),
      (∀ s c, c ∈ cs → (f s c).2.countP p + m s ≤ m (f s c).1) →
      (runCandidates f st cs).2.countP p + m st ≤
        m (runCandidates f st cs).1 := by
  intro cs
  induction cs with
  | nil =>
    intro st _
    simp [runCandidates]
  | cons c rest ih =>
    intro st h
    have h1 := h st c (List.mem_cons_self _ _)
    have h2 := ih (f st c).1
      (fun s c' hc' => h s c' (List.mem_cons_of_mem _ hc'))
    simp only [runCandidates, List.countP_append]
    omega

theorem runCandidates_flag_count
    (f : SvcState → ReminderId × ReminderDoc → SvcState × List Action)
    (id : ReminderId) (t : TriggerType) :
    ∀ (cs : List (ReminderId × ReminderDoc)) (st : SvcState),
      (∀ s c, c ∈ cs → c.1 ≠ id →
          dbFind? (f s c).1.reminders id = dbFind? s.reminders id ∧
          markCount (f s c).2 id t = 0) →
      (∀ s c, c ∈ cs → c.1 = id → (dbFind? s.reminders id).isSome = true →
          markCount (f s c).2 id t ≤ flagVal (f s c).1.reminders id t) →
      ((∃ snap, (id, snap) ∈ cs) → (dbFind? st.reminders id).isSome = true) →
      (∀ snap, (id, snap) ∈ cs → storedFlag st.reminders id t = false) →
      (cs.map Prod.fst).Nodup →
      markCount (runCandidates f st cs).2 id t + flagVal st.reminders id t ≤
        flagVal (runCandidates f st cs).1.reminders id t := by
  intro cs
  induction cs with
  | nil =>
    intro st _ _ _ _ _
    simp [runCandidates, markCount_nil]
  | cons c rest ih =>
    intro st hne heq hpres hstart hnd
    simp only [List.map_cons, List.nodup_cons] at hnd
    by_cases hc : c.1 = id
    · have hcc : (id, c.2) = c := by
        cases c
        simp only at hc
        rw [hc]
      have hv0 : storedFlag st.reminders id t = false :=
        hstart c.2 (hcc ▸ List.mem_cons_self _ _)
      have hps : (dbFind? st.reminders id).isSome = true :=
        hpres ⟨c.2, hcc ▸ List.mem_cons_self _ _⟩
      have h1 := heq st c (List.mem_cons_self _ _) hc hps
      have hrest : ∀ c' ∈ rest, c'.1 ≠ id := by
        intro c' hc' hcc'
        apply hnd.1
        have hcc2 : c.1 = c'.1 := by rw [hc, hcc']
        rw [hcc2]
        exact List.mem_map_of_mem Prod.fst hc'
      have h2 := runCandidates_inv f
        (fun s => dbFind? s.reminders id = dbFind? (f st c).1.reminders id)
        (fun a => a ≠ Action.markNotified id t) rest (f st c).1
        (fun s c' hc' hP => by
          have hne' := hne s c' (List.mem_cons_of_mem _ hc') (hrest c' hc')
          exact ⟨hne'.1.trans hP, forall_ne_mark_of_markCount_zero hne'.2⟩)
        rfl
      have hm2 : markCount (runCandidates f (f st c).1 rest).2 id t = 0 :=
        markCount_eq_zero h2.2
      have hfv : flagVal (runCandidates f (f st c).1 rest).1.reminders id t =
          flagVal (f st c).1.reminders id t := flagVal_congr t h2.1
      have hv0' : flagVal st.reminders id t = 0 := by
        unfold flagVal
        rw [hv0]
        simp
      simp only [runCandidates, markCount_append]
      rw [hm2, hfv, hv0']
      omega
    · have hne1 := hne st c (List.mem_cons_self _ _) hc
      have hv : flagVal (f st c).1.reminders id t =
          flagVal st.reminders id t := flagVal_congr t hne1.1
      have hsf : storedFlag (f st c).1.reminders id t =
          storedFlag st.reminders id t := storedFlag_congr t hne1.1
      have hs : (dbFind? (f st c).1.reminders id).isSome =
          (dbFind? st.reminders id).isSome := by rw [hne1.1]
      have ih' := ih (f st c).1
        (fun s c' hc' => hne s c' (List.mem_cons_of_mem _ hc'))
        (fun s c' hc' => heq s c' (List.mem_cons_of_mem _ hc'))
        (fun hex => by
          rw [hs]
          exact hpres ⟨hex.choose, List.mem_cons_of_mem _ hex.choose_spec⟩)
        (fun snap hsnap => by
          rw [hsf]
          exact hstart snap (List.mem_cons_of_mem _ hsnap))
        hnd.2
      simp only [runCandidates, markCount_append]
      rw [hne1.2, hv] at *
      omega

/-! ### Lemmas about the call-status paths and administrative reset -/

theorem checkCallStatus_keys (g : Nat → Option TwilioCallInfo) (st : SvcState)
    (id : ReminderId) (sid : Nat) :
    (checkCallStatus g st id sid).1.reminders.map Prod.fst =
      st.reminders.map Prod.fst := by
  unfold checkCallStatus
  cases g sid with
  | none => rfl
  | some info =>
    cases dbFind? st.reminders id with
    | none => rfl
    | some r => simp [dbUpdate_keys]

theorem checkCallStatus_flag (g : Nat → Option TwilioCallInfo) (st : SvcState)
    (id : ReminderId) (sid : Nat) (i : ReminderId) (t : TriggerType) :
    storedFlag (checkCallStatus g st id sid).1.reminders i t =
      storedFlag st.reminders i t := by
  unfold checkCallStatus
  cases g sid with
  | none => rfl
  | some info =>
    cases dbFind? st.reminders id with
    | none => rfl
    | some r =>
      dsimp only
      exact storedFlag_dbUpdate _ _ _ (fun x t' => by cases t' <;> rfl) i t

theorem checkCallStatus_attempts (g : Nat → Option TwilioCallInfo)
    (st : SvcState) (id : ReminderId) (sid : Nat) (i : ReminderId) :
    attemptsOf (checkCallStatus g st id sid).1.reminders i =
      attemptsOf st.reminders i := by
  unfold checkCallStatus
  cases g sid with
  | none => rfl
  | some info =>
    cases dbFind? st.reminders id with
    | none => rfl
    | some r =>
      dsimp only
      apply attemptsOf_dbUpdate
      intro x
      rfl

theorem checkCallStatus_acts (g : Nat → Option TwilioCallInfo) (st : SvcState)
    (id : ReminderId) (sid : Nat) :
    ∀ a ∈ (checkCallStatus g st id sid).2,
      a = Action.scheduleRetry id 60000 := by
  unfold checkCallStatus
  cases g sid with
  | none => simp
  | some info =>
    cases dbFind? st.reminders id with
    | none => simp
    | some r =>
      dsimp only
      by_cases h : (classifyCallOutcome info.status info.duration
          r.callAttempts).2 = true
      · rw [if_pos h]
        simp
      · rw [if_neg h]
        simp

theorem handleTwilioCallStatus_keys (st : SvcState) (sid : Nat) (s : String)
    (d : Int) :
    (handleTwilioCallStatus st sid s d).1.reminders.map Prod.fst =
      st.reminders.map Prod.fst := by
  unfold handleTwilioCallStatus
  cases st.reminders.find? (fun p => decide (p.2.callSid = some sid)) with
  | none => rfl
  | some p => simp [dbUpdate_keys]

theorem handleTwilioCallStatus_flag (st : SvcState) (sid : Nat) (s : String)
    (d : Int) (i : ReminderId) (t : TriggerType) :
    storedFlag (handleTwilioCallStatus st sid s d).1.reminders i t =
      storedFlag st.reminders i t := by
  unfold handleTwilioCallStatus
  cases st.reminders.find? (fun p => decide (p.2.callSid = some sid)) with
  | none => rfl
  | some p =>
    dsimp only
    exact storedFlag_dbUpdate _ _ _ (fun x t' => by cases t' <;> rfl) i t

theorem handleTwilioCallStatus_attempts (st : SvcState) (sid : Nat)
    (s : String) (d : Int) (i : ReminderId) :
    attemptsOf (handleTwilioCallStatus st sid s d).1.reminders i =
      attemptsOf st.reminders i := by
  unfold handleTwilioCallStatus
  cases st.reminders.find? (fun p => decide (p.2.callSid = some sid)) with
  | none => rfl
  | some p =>
    dsimp only
    apply attemptsOf_dbUpdate
    intro x
    rfl

theorem handleTwilioCallStatus_acts (st : SvcState) (sid : Nat) (s : String)
    (d : Int) :
    ∀ a ∈ (handleTwilioCallStatus st sid s d).2,
      ∃ i, a = Action.scheduleRetry i 60000 := by
  unfold handleTwilioCallStatus
  cases st.reminders.find? (fun p => decide (p.2.callSid = some sid)) with
  | none => simp
  | some p =>
    dsimp only
    by_cases h : (classifyCallOutcome s d p.2.callAttempts).2 = true
    · rw [if_pos h]
      intro a ha
      simp only [List.mem_singleton] at ha
      exact ⟨p.1, ha⟩
    · rw [if_neg h]
      simp

theorem resetNotificationStatus_keys (st : SvcState) (id : ReminderId)
    (t : TriggerType) :
    (resetNotificationStatus st id t).reminders.map Prod.fst =
      st.reminders.map Prod.fst := by
  unfold resetNotificationStatus
  cases dbFind? st.reminders id with
  | none => rfl
  | some r => simp [dbUpdate_keys]

theorem resetNotificationStatus_flag_other (st : SvcState) (id : ReminderId)
    (t : TriggerType) (i : ReminderId) (t' : TriggerType)
    (h : ¬(id = i ∧ t = t')) :
    storedFlag (resetNotificationStatus st id t).reminders i t' =
      storedFlag st.reminders i t' := by
  unfold resetNotificationStatus
  cases dbFind? st.reminders id with
  | none => rfl
  | some r =>
    dsimp only
    by_cases hi : id = i
    · subst hi
      have ht : ¬ t = t' := fun hc => h ⟨rfl, hc⟩
      unfold storedFlag
      rw [dbFind?_update_self]
      cases hd : dbFind? st.reminders id with
      | none => simp
      | some q => cases t <;> cases t' <;> simp_all [flagOf]
    · unfold storedFlag
      rw [dbFind?_update_ne _ _ hi]

theorem resetNotificationStatus_attempts (st : SvcState) (id : ReminderId)
    (t : TriggerType) (i : ReminderId) :
    attemptsOf (resetNotificationStatus st id t).reminders i =
      attemptsOf st.reminders i := by
  unfold resetNotificationStatus
  cases dbFind? st.reminders id with
  | none => rfl
  | some r =>
    dsimp only
    cases t <;>
    · apply attemptsOf_dbUpdate
      intro x
      rfl

/-! ### Query-filter lemmas -/

theorem timeQuery_mem {st : SvcState} {now : Int}
    {c : ReminderId × ReminderDoc} (h : c ∈ timeQuery st now) :
    c ∈ st.reminders :=
  (List.mem_filter.mp h).1

theorem timeQuery_flag {st : SvcState} {now : Int}
    {c : ReminderId × ReminderDoc} (h : c ∈ timeQuery st now) :
    c.2.timeNotificationSent = false := by
  have hp := (List.mem_filter.mp h).2
  simp only [Bool.and_eq_true, Bool.not_eq_true'] at hp
  exact hp.1.2

theorem locationQuery_mem {st : SvcState} {c : ReminderId × ReminderDoc}
    (h : c ∈ locationQuery st) : c ∈ st.reminders :=
  (List.mem_filter.mp h).1

theorem locationQuery_flag {st : SvcState} {c : ReminderId × ReminderDoc}
    (h : c ∈ locationQuery st) : c.2.locationNotificationSent = false := by
  have hp := (List.mem_filter.mp h).2
  simp only [Bool.and_eq_true, Bool.not_eq_true'] at hp
  exact hp.1.1

theorem locationUpdateQuery_mem {st : SvcState} {uid : UserId}
    {c : ReminderId × ReminderDoc} (h : c ∈ locationUpdateQuery st uid) :
    c ∈ st.reminders :=
  (List.mem_filter.mp h).1

theorem locationUpdateQuery_flag {st : SvcState} {uid : UserId}
    {c : ReminderId × ReminderDoc} (h : c ∈ locationUpdateQuery st uid) :
    c.2.locationNotificationSent = false := by
  have hp := (List.mem_filter.mp h).2
  simp only [Bool.and_eq_true, Bool.not_eq_true'] at hp
  exact hp.1.1.2

theorem locationUpdateQuery_dateTime {st : SvcState} {uid : UserId}
    {c : ReminderId × ReminderDoc} (h : c ∈ locationUpdateQuery st uid) :
    c.2.reminderDateTime = none := by
  have hp := (List.mem_filter.mp h).2
  simp only [Bool.and_eq_true, Option.isNone_iff_eq_none] at hp
  exact hp.2

theorem query_keys_nodup {st : SvcState}
    (hnd : (st.reminders.map Prod.fst).Nodup)
    (q : List (ReminderId × ReminderDoc))
    (hq : q.Sublist st.reminders) : (q.map Prod.fst).Nodup :=
  (hq.map Prod.fst).nodup hnd

/-! ### One-event lemmas: notified-flag measure and action absence -/

theorem mark_measure_of_pres {acts : List Action}
    {db db' : List (ReminderId × ReminderDoc)} {id : ReminderId}
    {t : TriggerType}
    (hflag : storedFlag db' id t = storedFlag db id t)
    (hm : markCount acts id t = 0) :
    markCount acts id t + flagVal db id t ≤ flagVal db' id t := by
  unfold flagVal
  rw [hflag, hm]
  omega

theorem checkTime_mark_measure (env : Env) (st : SvcState) (now : Int)
    (id : ReminderId) (hnd : (st.reminders.map Prod.fst).Nodup) :
    markCount (checkTimeBasedReminders env st now).2 id TriggerType.time +
        flagVal st.reminders id TriggerType.time ≤
      flagVal (checkTimeBasedReminders env st now).1.reminders id
        TriggerType.time := by
  apply runCandidates_flag_count
  · intro s c hc hcne
    refine ⟨timeCandidateStep_find_ne env now s c id hcne, ?_⟩
    exact timeCandidateStep_markCount_other env now s c id _
      (fun hh => hcne hh.1.symm)
  · intro s c hc hceq hs
    have h := timeCandidateStep_mark_measure env now s c (by rw [hceq]; exact hs)
    rw [hceq] at h
    exact h
  · rintro ⟨snap, hsnap⟩
    exact dbFind?_isSome_of_mem (timeQuery_mem hsnap)
  · intro snap hsnap
    have hfind : dbFind? st.reminders id = some snap :=
      dbFind?_eq_of_mem_nodup hnd (timeQuery_mem hsnap)
    unfold storedFlag
    rw [hfind]
    exact timeQuery_flag hsnap
  · exact query_keys_nodup hnd _ (List.filter_sublist _)

theorem checkLocation_mark_measure (env : Env) (st : SvcState) (now : Int)
    (id : ReminderId) (hnd : (st.reminders.map Prod.fst).Nodup) :
    markCount (checkLocationBasedReminders env st now).2 id
        TriggerType.location +
        flagVal st.reminders id TriggerType.location ≤
      flagVal (checkLocationBasedReminders env st now).1.reminders id
        TriggerType.location := by
  apply runCandidates_flag_count
  · intro s c hc hcne
    refine ⟨locationCandidateStep_find_ne env now s c id hcne, ?_⟩
    exact locationCandidateStep_markCount_other env now s c id _
      (fun hh => hcne hh.1.symm)
  · intro s c hc hceq hs
    have h := locationCandidateStep_mark_measure env now s c
      (by rw [hceq]; exact hs)
    rw [hceq] at h
    exact h
  · rintro ⟨snap, hsnap⟩
    exact dbFind?_isSome_of_mem (locationQuery_mem hsnap)
  · intro snap hsnap
    have hfind : dbFind? st.reminders id = some snap :=
      dbFind?_eq_of_mem_nodup hnd (locationQuery_mem hsnap)
    unfold storedFlag
    rw [hfind]
    exact locationQuery_flag hsnap
  · exact query_keys_nodup hnd _ (List.filter_sublist _)

theorem handleLocationUpdate_mark_measure (env : Env) (st : SvcState)
    (uid : UserId) (loc : Coords) (now : Int) (id : ReminderId)
    (hnd : (st.reminders.map Prod.fst).Nodup) :
    markCount (handleLocationUpdate env st uid loc now).2 id
        TriggerType.location +
        flagVal st.reminders id TriggerType.location ≤
      flagVal (handleLocationUpdate env st uid loc now).1.reminders id
        TriggerType.location := by
  apply runCandidates_flag_count
  · intro s c hc hcne
    refine ⟨locationUpdateCandidateStep_find_ne env loc now s c id hcne, ?_⟩
    exact locationUpdateCandidateStep_markCount_other env loc now s c id _
      (fun hh => hcne hh.1.symm)
  · intro s c hc hceq hs
    have h := locationUpdateCandidateStep_mark_measure env loc now s c
      (by rw [hceq]; exact hs)
    rw [hceq] at h
    exact h
  · rintro ⟨snap, hsnap⟩
    exact dbFind?_isSome_of_mem (locationUpdateQuery_mem hsnap)
  · intro snap hsnap
    have hfind : dbFind? st.reminders id = some snap :=
      dbFind?_eq_of_mem_nodup hnd (locationUpdateQuery_mem hsnap)
    unfold storedFlag
    rw [hfind]
    exact locationUpdateQuery_flag hsnap
  · exact query_keys_nodup hnd _ (List.filter_sublist _)

theorem checkTime_other (env : Env) (st : SvcState) (now : Int)
    (id : ReminderId) (t : TriggerType) (ht : ¬ t = TriggerType.time) :
    storedFlag (checkTimeBasedReminders env st now).1.reminders id t =
        storedFlag st.reminders id t ∧
      markCount (checkTimeBasedReminders env st now).2 id t = 0 := by
  have h := runCandidates_inv (timeCandidateStep env now)
    (fun s => storedFlag s.reminders id t = storedFlag st.reminders id t)
    (fun a => a ≠ Action.markNotified id t) (timeQuery st now) st
    (fun s c hc hP =>
      ⟨(timeCandidateStep_flag_other env now s c id t
          (fun hh => ht hh.2)).trans hP,
        forall_ne_mark_of_markCount_zero
          (timeCandidateStep_markCount_other env now s c id t
            (fun hh => ht hh.2))⟩)
    rfl
  exact ⟨h.1, markCount_eq_zero h.2⟩

theorem checkLocation_other (env : Env) (st : SvcState) (now : Int)
    (id : ReminderId) (t : TriggerType) (ht : ¬ t = TriggerType.location) :
    storedFlag (checkLocationBasedReminders env st now).1.reminders id t =
        storedFlag st.reminders id t ∧
      markCount (checkLocationBasedReminders env st now).2 id t = 0 := by
  have h := runCandidates_inv (locationCandidateStep env now)
    (fun s => storedFlag s.reminders id t = storedFlag st.reminders id t)
    (fun a => a ≠ Action.markNotified id t) (locationQuery st) st
    (fun s c hc hP =>
      ⟨(locationCandidateStep_flag_other env now s c id t
          (fun hh => ht hh.2)).trans hP,
        forall_ne_mark_of_markCount_zero
          (locationCandidateStep_markCount_other env now s c id t
            (fun hh => ht hh.2))⟩)
    rfl
  exact ⟨h.1, markCount_eq_zero h.2⟩

theorem handleLocationUpdate_other (env : Env) (st : SvcState) (uid : UserId)
    (loc : Coords) (now : Int) (id : ReminderId) (t : TriggerType)
    (ht : ¬ t = TriggerType.location) :
    storedFlag (handleLocationUpdate env st uid loc now).1.reminders id t =
        storedFlag st.reminders id t ∧
      markCount (handleLocationUpdate env st uid loc now).2 id t = 0 := by
  have h := runCandidates_inv (locationUpdateCandidateStep env loc now)
    (fun s => storedFlag s.reminders id t = storedFlag st.reminders id t)
    (fun a => a ≠ Action.markNotified id t) (locationUpdateQuery st uid) st
    (fun s c hc hP =>
      ⟨(locationUpdateCandidateStep_flag_other env loc now s c id t
          (fun hh => ht hh.2)).trans hP,
        forall_ne_mark_of_markCount_zero
          (locationUpdateCandidateStep_markCount_other env loc now s c id t
            (fun hh => ht hh.2))⟩)
    rfl
  exact ⟨h.1, markCount_eq_zero h.2⟩

/-! ### One-event lemmas over `step` -/

theorem step_keys (env : Env) (st : SvcState) (e : Event) :
    (step env st e).1.reminders.map Prod.fst = st.reminders.map Prod.fst := by
  cases e with
  | timeTick now =>
    exact (runCandidates_inv (timeCandidateStep env now)
      (fun s => s.reminders.map Prod.fst = st.reminders.map Prod.fst)
      (fun _ => True) (timeQuery st now) st
      (fun s c _ hP =>
        ⟨(timeCandidateStep_keys env now s c).trans hP, fun _ _ => trivial⟩)
      rfl).1
  | manualTimeCheck now =>
    exact (runCandidates_inv (timeCandidateStep env now)
      (fun s => s.reminders.map Prod.fst = st.reminders.map Prod.fst)
      (fun _ => True) (timeQuery st now) st
      (fun s c _ hP =>
        ⟨(timeCandidateStep_keys env now s c).trans hP, fun _ _ => trivial⟩)
      rfl).1
  | locationTick now =>
    exact (runCandidates_inv (locationCandidateStep env now)
      (fun s => s.reminders.map Prod.fst = st.reminders.map Prod.fst)
      (fun _ => True) (locationQuery st) st
      (fun s c _ hP =>
        ⟨(locationCandidateStep_keys env now s c).trans hP, fun _ _ => trivial⟩)
      rfl).1
  | manualLocationCheck now =>
    exact (runCandidates_inv (locationCandidateStep env now)
      (fun s => s.reminders.map Prod.fst = st.reminders.map Prod.fst)
      (fun _ => True) (locationQuery st) st
      (fun s c _ hP =>
        ⟨(locationCandidateStep_keys env now s c).trans hP, fun _ _ => trivial⟩)
      rfl).1
  | locationUpdate uid loc now =>
    exact (runCandidates_inv (locationUpdateCandidateStep env loc now)
      (fun s => s.reminders.map Prod.fst = st.reminders.map Prod.fst)
      (fun _ => True) (locationUpdateQuery st uid) st
      (fun s c _ hP =>
        ⟨(locationUpdateCandidateStep_keys env loc now s c).trans hP,
          fun _ _ => trivial⟩)
      rfl).1
  | guardTimerFire i => rfl
  | reset i t' => exact resetNotificationStatus_keys st i t'
  | callRetryFire i now => exact makeReminderCall_keys env.placeOk st i now
  | statusPollFire i sid result => exact checkCallStatus_keys _ st i sid
  | twilioWebhook sid s d => exact handleTwilioCallStatus_keys st sid s d

theorem step_mark_measure (env : Env) (st : SvcState) (e : Event)
    (id : ReminderId) (t : TriggerType) (hnr : e ≠ Event.reset id t)
    (hnd : (st.reminders.map Prod.fst).Nodup) :
    markCount (step env st e).2 id t + flagVal st.reminders id t ≤
      flagVal (step env st e).1.reminders id t := by
  cases e with
  | timeTick now =>
    cases t with
    | time => exact checkTime_mark_measure env st now id hnd
    | location =>
      have h := checkTime_other env st now id TriggerType.location (by simp)
      exact mark_measure_of_pres h.1 h.2
  | manualTimeCheck now =>
    cases t with
    | time => exact checkTime_mark_measure env st now id hnd
    | location =>
      have h := checkTime_other env st now id TriggerType.location (by simp)
      exact mark_measure_of_pres h.1 h.2
  | locationTick now =>
    cases t with
    | location => exact checkLocation_mark_measure env st now id hnd
    | time =>
      have h := checkLocation_other env st now id TriggerType.time (by simp)
      exact mark_measure_of_pres h.1 h.2
  | manualLocationCheck now =>
    cases t with
    | location => exact checkLocation_mark_measure env st now id hnd
    | time =>
      have h := checkLocation_other env st now id TriggerType.time (by simp)
      exact mark_measure_of_pres h.1 h.2
  | locationUpdate uid loc now =>
    cases t with
    | location => exact handleLocationUpdate_mark_measure env st uid loc now id hnd
    | time =>
      have h := handleLocationUpdate_other env st uid loc now id
        TriggerType.time (by simp)
      exact mark_measure_of_pres h.1 h.2
  | guardTimerFire i => exact mark_measure_of_pres rfl (markCount_nil id t)
  | reset i t' =>
    have hne : ¬(i = id ∧ t' = t) := by
      rintro ⟨rfl, rfl⟩
      exact hnr rfl
    exact mark_measure_of_pres
      (resetNotificationStatus_flag_other st i t' id t
        (fun hh => hne ⟨hh.1, hh.2⟩)) (markCount_nil id t)
  | callRetryFire i now =>
    refine mark_measure_of_pres (makeReminderCall_flag env.placeOk st i now id t)
      (markCount_eq_zero ?_)
    intro a ha hc
    have h := (makeReminderCall_acts env.placeOk st i now a ha).2.1
    subst hc
    simp [actionTrigger] at h
  | statusPollFire i sid result =>
    refine mark_measure_of_pres (checkCallStatus_flag _ st i sid id t)
      (markCount_eq_zero ?_)
    intro a ha hc
    have h := checkCallStatus_acts _ st i sid a ha
    rw [hc] at h
    cases h
  | twilioWebhook sid s d =>
    refine mark_measure_of_pres (handleTwilioCallStatus_flag st sid s d id t)
      (markCount_eq_zero ?_)
    intro a ha hc
    rcases handleTwilioCallStatus_acts st sid s d a ha with ⟨j, hj⟩
    rw [hc] at hj
    cases hj

theorem checkTime_noIdCand (st : SvcState) (now : Int) (id : ReminderId)
    (hnd : (st.reminders.map Prod.fst).Nodup)
    (hflag : storedFlag st.reminders id TriggerType.time = true) :
    ∀ c ∈ timeQuery st now, c.1 ≠ id := by
  intro c hc hcc
  have hcc2 : (id, c.2) = c := by
    cases c
    simp only at hcc
    rw [hcc]
  have hmem : (id, c.2) ∈ st.reminders := by
    rw [hcc2]
    exact timeQuery_mem hc
  have hfind : dbFind? st.reminders id = some c.2 :=
    dbFind?_eq_of_mem_nodup hnd hmem
  have hfl := timeQuery_flag hc
  unfold storedFlag at hflag
  rw [hfind] at hflag
  simp only [flagOf] at hflag
  rw [hfl] at hflag
  cases hflag

theorem checkLocation_noIdCand (st : SvcState) (id : ReminderId)
    (hnd : (st.reminders.map Prod.fst).Nodup)
    (hflag : storedFlag st.reminders id TriggerType.location = true) :
    ∀ c ∈ locationQuery st, c.1 ≠ id := by
  intro c hc hcc
  have hcc2 : (id, c.2) = c := by
    cases c
    simp only at hcc
    rw [hcc]
  have hmem : (id, c.2) ∈ st.reminders := by
    rw [hcc2]
    exact locationQuery_mem hc
  have hfind : dbFind? st.reminders id = some c.2 :=
    dbFind?_eq_of_mem_nodup hnd hmem
  have hfl := locationQuery_flag hc
  unfold storedFlag at hflag
  rw [hfind] at hflag
  simp only [flagOf] at hflag
  rw [hfl] at hflag
  cases hflag

theorem locationUpdate_noIdCand (st : SvcState) (uid : UserId)
    (id : ReminderId) (hnd : (st.reminders.map Prod.fst).Nodup)
    (hflag : storedFlag st.reminders id TriggerType.location = true) :
    ∀ c ∈ locationUpdateQuery st uid, c.1 ≠ id := by
  intro c hc hcc
  have hcc2 : (id, c.2) = c := by
    cases c
    simp only at hcc
    rw [hcc]
  have hmem : (id, c.2) ∈ st.reminders := by
    rw [hcc2]
    exact locationUpdateQuery_mem hc
  have hfind : dbFind? st.reminders id = some c.2 :=
    dbFind?_eq_of_mem_nodup hnd hmem
  have hfl := locationUpdateQuery_flag hc
  unfold storedFlag at hflag
  rw [hfind] at hflag
  simp only [flagOf] at hflag
  rw [hfl] at hflag
  cases hflag

theorem step_noTriggerActions (env : Env) (st : SvcState) (e : Event)
    (id : ReminderId) (t : TriggerType) (hnr : e ≠ Event.reset id t)
    (hnd : (st.reminders.map Prod.fst).Nodup)
    (hflag : storedFlag st.reminders id t = true) :
    ∀ a ∈ (step env st e).2, triggerActionFor a id t = false := by
  cases e with
  | timeTick now =>
    cases t with
    | time =>
      exact (runCandidates_inv (timeCandidateStep env now) (fun _ => True)
        (fun a => triggerActionFor a id TriggerType.time = false)
        (timeQuery st now) st
        (fun s c hc _ => ⟨trivial, fun a ha =>
          triggerActionFor_false_of_id TriggerType.time
            (by rw [(timeCandidateStep_acts env now s c a ha).1]
                exact checkTime_noIdCand st now id hnd hflag c hc)⟩)
        trivial).2
    | location =>
      exact (runCandidates_inv (timeCandidateStep env now) (fun _ => True)
        (fun a => triggerActionFor a id TriggerType.location = false)
        (timeQuery st now) st
        (fun s c hc _ => ⟨trivial, fun a ha => by
          rcases (timeCandidateStep_acts env now s c a ha).2 with h2 | h2 <;>
            exact triggerActionFor_false_of_trigger (by rw [h2]; simp)⟩)
        trivial).2
  | manualTimeCheck now =>
    cases t with
    | time =>
      exact (runCandidates_inv (timeCandidateStep env now) (fun _ => True)
        (fun a => triggerActionFor a id TriggerType.time = false)
        (timeQuery st now) st
        (fun s c hc _ => ⟨trivial, fun a ha =>
          triggerActionFor_false_of_id TriggerType.time
            (by rw [(timeCandidateStep_acts env now s c a ha).1]
                exact checkTime_noIdCand st now id hnd hflag c hc)⟩)
        trivial).2
    | location =>
      exact (runCandidates_inv (timeCandidateStep env now) (fun _ => True)
        (fun a => triggerActionFor a id TriggerType.location = false)
        (timeQuery st now) st
        (fun s c hc _ => ⟨trivial, fun a ha => by
          rcases (timeCandidateStep_acts env now s c a ha).2 with h2 | h2 <;>
            exact triggerActionFor_false_of_trigger (by rw [h2]; simp)⟩)
        trivial).2
  | locationTick now =>
    cases t with
    | location =>
      exact (runCandidates_inv (locationCandidateStep env now) (fun _ => True)
        (fun a => triggerActionFor a id TriggerType.location = false)
        (locationQuery st) st
        (fun s c hc _ => ⟨trivial, fun a ha =>
          triggerActionFor_false_of_id TriggerType.location
            (by rw [(locationCandidateStep_acts env now s c a ha).1]
                exact checkLocation_noIdCand st id hnd hflag c hc)⟩)
        trivial).2
    | time =>
      exact (runCandidates_inv (locationCandidateStep env now) (fun _ => True)
        (fun a => triggerActionFor a id TriggerType.time = false)
        (locationQuery st) st
        (fun s c hc _ => ⟨trivial, fun a ha => by
          rcases (locationCandidateStep_acts env now s c a ha).2 with h2 | h2 <;>
            exact triggerActionFor_false_of_trigger (by rw [h2]; simp)⟩)
        trivial).2
  | manualLocationCheck now =>
    cases t with
    | location =>
      exact (runCandidates_inv (locationCandidateStep env now) (fun _ => True)
        (fun a => triggerActionFor a id TriggerType.location = false)
        (locationQuery st) st
        (fun s c hc _ => ⟨trivial, fun a ha =>
          triggerActionFor_false_of_id TriggerType.location
            (by rw [(locationCandidateStep_acts env now s c a ha).1]
                exact checkLocation_noIdCand st id hnd hflag c hc)⟩)
        trivial).2
    | time =>
      exact (runCandidates_inv (locationCandidateStep env now) (fun _ => True)
        (fun a => triggerActionFor a id TriggerType.time = false)
        (locationQuery st) st
        (fun s c hc _ => ⟨trivial, fun a ha => by
          rcases (locationCandidateStep_acts env now s c a ha).2 with h2 | h2 <;>
            exact triggerActionFor_false_of_trigger (by rw [h2]; simp)⟩)
        trivial).2
  | locationUpdate uid loc now =>
    cases t with
    | location =>
      exact (runCandidates_inv (locationUpdateCandidateStep env loc now)
        (fun _ => True)
        (fun a => triggerActionFor a id TriggerType.location = false)
        (locationUpdateQuery st uid) st
        (fun s c hc _ => ⟨trivial, fun a ha =>
          triggerActionFor_false_of_id TriggerType.location
            (by rw [(locationUpdateCandidateStep_acts env loc now s c a ha).1]
                exact locationUpdate_noIdCand st uid id hnd hflag c hc)⟩)
        trivial).2
    | time =>
      exact (runCandidates_inv (locationUpdateCandidateStep env loc now)
        (fun _ => True)
        (fun a => triggerActionFor a id TriggerType.time = false)
        (locationUpdateQuery st uid) st
        (fun s c hc _ => ⟨trivial, fun a ha => by
          rcases (locationUpdateCandidateStep_acts env loc now s c a ha).2
            with h2 | h2 <;>
            exact triggerActionFor_false_of_trigger (by rw [h2]; simp)⟩)
        trivial).2
  | guardTimerFire i => simp [step]
  | reset i t' => simp [step]
  | callRetryFire i now =>
    intro a ha
    exact triggerActionFor_false_of_trigger
      (by rw [(makeReminderCall_acts env.placeOk st i now a ha).2.1]; simp)
  | statusPollFire i sid result =>
    intro a ha
    have h := checkCallStatus_acts _ st i sid a ha
    exact triggerActionFor_false_of_trigger (by rw [h]; simp [actionTrigger])
  | twilioWebhook sid s d =>
    intro a ha
    rcases handleTwilioCallStatus_acts st sid s d a ha with ⟨j, hj⟩
    exact triggerActionFor_false_of_trigger (by rw [hj]; simp [actionTrigger])

theorem step_attempts_le (env : Env) (st : SvcState) (e : Event)
    (i : ReminderId) (h : attemptsOf st.reminders i ≤ 2) :
    attemptsOf (step env st e).1.reminders i ≤ 2 := by
  cases e with
  | timeTick now =>
    exact (runCandidates_inv (timeCandidateStep env now)
      (fun s => attemptsOf s.reminders i ≤ 2) (fun _ => True)
      (timeQuery st now) st
      (fun s c _ hP =>
        ⟨timeCandidateStep_attempts_le env now s c i hP, fun _ _ => trivial⟩)
      h).1
  | manualTimeCheck now =>
    exact (runCandidates_inv (timeCandidateStep env now)
      (fun s => attemptsOf s.reminders i ≤ 2) (fun _ => True)
      (timeQuery st now) st
      (fun s c _ hP =>
        ⟨timeCandidateStep_attempts_le env now s c i hP, fun _ _ => trivial⟩)
      h).1
  | locationTick now =>
    exact (runCandidates_inv (locationCandidateStep env now)
      (fun s => attemptsOf s.reminders i ≤ 2) (fun _ => True)
      (locationQuery st) st
      (fun s c _ hP =>
        ⟨locationCandidateStep_attempts_le env now s c i hP,
          fun _ _ => trivial⟩)
      h).1
  | manualLocationCheck now =>
    exact (runCandidates_inv (locationCandidateStep env now)
      (fun s => attemptsOf s.reminders i ≤ 2) (fun _ => True)
      (locationQuery st) st
      (fun s c _ hP =>
        ⟨locationCandidateStep_attempts_le env now s c i hP,
          fun _ _ => trivial⟩)
      h).1
  | locationUpdate uid loc now =>
    exact (runCandidates_inv (locationUpdateCandidateStep env loc now)
      (fun s => attemptsOf s.reminders i ≤ 2) (fun _ => True)
      (locationUpdateQuery st uid) st
      (fun s c _ hP =>
        ⟨locationUpdateCandidateStep_attempts_le env loc now s c i hP,
          fun _ _ => trivial⟩)
      h).1
  | guardTimerFire j => exact h
  | reset j t' =>
    show attemptsOf (resetNotificationStatus st j t').reminders i ≤ 2
    rw [resetNotificationStatus_attempts]
    exact h
  | callRetryFire j now => exact makeReminderCall_attempts_le env.placeOk st j now i h
  | statusPollFire j sid result =>
    show attemptsOf (checkCallStatus (fun _ => result) st j sid).1.reminders i ≤ 2
    rw [checkCallStatus_attempts]
    exact h
  | twilioWebhook sid s d =>
    show attemptsOf (handleTwilioCallStatus st sid s d).1.reminders i ≤ 2
    rw [handleTwilioCallStatus_attempts]
    exact h

theorem step_dispatch_measure (env : Env) (st : SvcState) (e : Event)
    (i : ReminderId) :
    dispatchCount (step env st e).2 i + attemptsOf st.reminders i ≤
      attemptsOf (step env st e).1.reminders i := by
  cases e with
  | timeTick now =>
    have h := runCandidates_measure (timeCandidateStep env now)
      (fun s => attemptsOf s.reminders i)
      (fun a => match a with
        | Action.callDispatch j _ => decide (j = i)
        | _ => false)
      (timeQuery st now) st
      (fun s c _ => by
        simpa [dispatchCount] using
          timeCandidateStep_attempts_measure env now s c i)
    simpa [dispatchCount] using h
  | manualTimeCheck now =>
    have h := runCandidates_measure (timeCandidateStep env now)
      (fun s => attemptsOf s.reminders i)
      (fun a => match a with
        | Action.callDispatch j _ => decide (j = i)
        | _ => false)
      (timeQuery st now) st
      (fun s c _ => by
        simpa [dispatchCount] using
          timeCandidateStep_attempts_measure env now s c i)
    simpa [dispatchCount] using h
  | locationTick now =>
    have h := runCandidates_measure (locationCandidateStep env now)
      (fun s => attemptsOf s.reminders i)
      (fun a => match a with
        | Action.callDispatch j _ => decide (j = i)
        | _ => false)
      (locationQuery st) st
      (fun s c _ => by
        simpa [dispatchCount] using
          locationCandidateStep_attempts_measure env now s c i)
    simpa [dispatchCount] using h
  | manualLocationCheck now =>
    have h := runCandidates_measure (locationCandidateStep env now)
      (fun s => attemptsOf s.reminders i)
      (fun a => match a with
        | Action.callDispatch j _ => decide (j = i)
        | _ => false)
      (locationQuery st) st
      (fun s c _ => by
        simpa [dispatchCount] using
          locationCandidateStep_attempts_measure env now s c i)
    simpa [dispatchCount] using h
  | locationUpdate uid loc now =>
    have h := runCandidates_measure (locationUpdateCandidateStep env loc now)
      (fun s => attemptsOf s.reminders i)
      (fun a => match a with
        | Action.callDispatch j _ => decide (j = i)
        | _ => false)
      (locationUpdateQuery st uid) st
      (fun s c _ => by
        simpa [dispatchCount] using
          locationUpdateCandidateStep_attempts_measure env loc now s c i)
    simpa [dispatchCount] using h
  | guardTimerFire j =>
    show dispatchCount [] i + attemptsOf st.reminders i ≤
      attemptsOf st.reminders i
    rw [dispatchCount_nil]
    omega
  | reset j t' =>
    show dispatchCount [] i + attemptsOf st.reminders i ≤
      attemptsOf (resetNotificationStatus st j t').reminders i
    rw [dispatchCount_nil, resetNotificationStatus_attempts]
    omega
  | callRetryFire j now => exact makeReminderCall_measure env.placeOk st j now i
  | statusPollFire j sid result =>
    have h0 : dispatchCount (checkCallStatus (fun _ => result) st j sid).2 i
        = 0 := by
      apply dispatchCount_eq_zero
      intro a ha sid'
      rw [checkCallStatus_acts _ st j sid a ha]
      simp
    show dispatchCount (checkCallStatus (fun _ => result) st j sid).2 i +
        attemptsOf st.reminders i ≤
      attemptsOf (checkCallStatus (fun _ => result) st j sid).1.reminders i
    rw [h0, checkCallStatus_attempts]
    omega
  | twilioWebhook sid s d =>
    have h0 : dispatchCount (handleTwilioCallStatus st sid s d).2 i = 0 := by
      apply dispatchCount_eq_zero
      intro a ha sid'
      rcases handleTwilioCallStatus_acts st sid s d a ha with ⟨j, hj⟩
      rw [hj]
      simp
    show dispatchCount (handleTwilioCallStatus st sid s d).2 i +
        attemptsOf st.reminders i ≤
      attemptsOf (handleTwilioCallStatus st sid s d).1.reminders i
    rw [h0, handleTwilioCallStatus_attempts]
    omega

/-! ### Whole-run lemmas -/

theorem storedFlag_true_of_flagVal {db : List (ReminderId × ReminderDoc)}
    {id : ReminderId} {t : TriggerType} (h : 1 ≤ flagVal db id t) :
    storedFlag db id t = true := by
  by_cases hb : storedFlag db id t = true
  · exact hb
  · unfold flagVal at h
    rw [if_neg hb] at h
    omega

theorem flagVal_of_true {db : List (ReminderId × ReminderDoc)}
    {id : ReminderId} {t : TriggerType} (h : storedFlag db id t = true) :
    flagVal db id t = 1 := by
  unfold flagVal
  rw [h, if_pos rfl]

theorem flagVal_le_one (db : List (ReminderId × ReminderDoc))
    (id : ReminderId) (t : TriggerType) : flagVal db id t ≤ 1 := by
  unfold flagVal
  by_cases hb : storedFlag db id t = true <;> simp [hb]

theorem run_keys (env : Env) : ∀ (es : List Event) (st : SvcState),
    (run env st es).1.reminders.map Prod.fst = st.reminders.map Prod.fst := by
  intro es
  induction es with
  | nil => intro st; rfl
  | cons e rest ih =>
    intro st
    simp only [run]
    exact (ih (step env st e).1).trans (step_keys env st e)

theorem run_mark_measure (env : Env) (id : ReminderId) (t : TriggerType) :
    ∀ (es : List Event) (st : SvcState), Event.reset id t ∉ es →
    (st.reminders.map Prod.fst).Nodup →
    markCount (run env st es).2 id t + flagVal st.reminders id t ≤
      flagVal (run env st es).1.reminders id t := by
  intro es
  induction es with
  | nil =>
    intro st _ _
    simp [run, markCount_nil]
  | cons e rest ih =>
    intro st hnr hnd
    have hnr1 : e ≠ Event.reset id t := fun hc =>
      hnr (hc ▸ List.mem_cons_self _ _)
    have hnr2 : Event.reset id t ∉ rest := fun hc =>
      hnr (List.mem_cons_of_mem _ hc)
    have h1 := step_mark_measure env st e id t hnr1 hnd
    have hnd2 : ((step env st e).1.reminders.map Prod.fst).Nodup := by
      rw [step_keys]
      exact hnd
    have h2 := ih (step env st e).1 hnr2 hnd2
    simp only [run, markCount_append]
    omega

theorem run_flagTrue (env : Env) (id : ReminderId) (t : TriggerType) :
    ∀ (es : List Event) (st : SvcState), Event.reset id t ∉ es →
    (st.reminders.map Prod.fst).Nodup →
    storedFlag st.reminders id t = true →
    storedFlag (run env st es).1.reminders id t = true ∧
      ∀ a ∈ (run env st es).2, triggerActionFor a id t = false := by
  intro es
  induction es with
  | nil =>
    intro st _ _ hflag
    exact ⟨hflag, by simp [run]⟩
  | cons e rest ih =>
    intro st hnr hnd hflag
    have hnr1 : e ≠ Event.reset id t := fun hc =>
      hnr (hc ▸ List.mem_cons_self _ _)
    have hnr2 : Event.reset id t ∉ rest := fun hc =>
      hnr (List.mem_cons_of_mem _ hc)
    have hnd2 : ((step env st e).1.reminders.map Prod.fst).Nodup := by
      rw [step_keys]
      exact hnd
    have hmeas := step_mark_measure env st e id t hnr1 hnd
    have hflag2 : storedFlag (step env st e).1.reminders id t = true := by
      apply storedFlag_true_of_flagVal
      have := flagVal_of_true hflag
      omega
    have hstep := step_noTriggerActions env st e id t hnr1 hnd hflag
    have hrest := ih (step env st e).1 hnr2 hnd2 hflag2
    refine ⟨hrest.1, ?_⟩
    intro a ha
    simp only [run, List.mem_append] at ha
    rcases ha with ha | ha
    · exact hstep a ha
    · exact hrest.2 a ha

theorem run_attempts_le (env : Env) (i : ReminderId) :
    ∀ (es : List Event) (st : SvcState), attemptsOf st.reminders i ≤ 2 →
    attemptsOf (run env st es).1.reminders i ≤ 2 := by
  intro es
  induction es with
  | nil => intro st h; exact h
  | cons e rest ih =>
    intro st h
    exact ih (step env st e).1 (step_attempts_le env st e i h)

theorem run_dispatch_measure (env : Env) (i : ReminderId) :
    ∀ (es : List Event) (st : SvcState),
    dispatchCount (run env st es).2 i + attemptsOf st.reminders i ≤
      attemptsOf (run env st es).1.reminders i := by
  intro es
  induction es with
  | nil =>
    intro st
    simp [run, dispatchCount_nil]
  | cons e rest ih =>
    intro st
    have h1 := step_dispatch_measure env st e i
    have h2 := ih (step env st e).1
    simp only [run, dispatchCount_append]
    omega

/-! ### The distance of a point to itself -/

theorem calculateDistance_self (lat lon : ℝ) :
    calculateDistance lat lon lat lon = 0 := by
  unfold calculateDistance deg2rad atan2
  simp

/-! ### The haversine development for the proximity threshold -/

theorem atan2_sqrt_eq_arcsin {x : ℝ} (h0 : 0 ≤ x) (h1 : x ≤ 1) :
    atan2 (Real.sqrt x) (Real.sqrt (1 - x)) = Real.arcsin (Real.sqrt x) := by
  rcases lt_or_eq_of_le h1 with hl | he
  · have hpos : 0 < Real.sqrt (1 - x) := Real.sqrt_pos.mpr (by linarith)
    unfold atan2
    rw [if_pos hpos]
    have hmem : Real.sqrt x ∈ Set.Ioo (-(1 : ℝ)) 1 := by
      constructor
      · have := Real.sqrt_nonneg x
        linarith
      · calc Real.sqrt x < Real.sqrt 1 := Real.sqrt_lt_sqrt h0 hl
          _ = 1 := Real.sqrt_one
    rw [Real.arcsin_eq_arctan hmem, Real.sq_sqrt h0]
  · subst he
    rw [show (1 : ℝ) - 1 = 0 by ring, Real.sqrt_zero, Real.sqrt_one,
      Real.arcsin_one]
    unfold atan2
    norm_num

theorem haversine_h_bounds (p1 p2 d : ℝ) (hc1 : 0 ≤ Real.cos p1)
    (hc2 : 0 ≤ Real.cos p2) :
    0 ≤ Real.sin ((p2 - p1) / 2) ^ 2 +
        Real.cos p1 * Real.cos p2 * Real.sin (d / 2) ^ 2 ∧
      Real.sin ((p2 - p1) / 2) ^ 2 +
        Real.cos p1 * Real.cos p2 * Real.sin (d / 2) ^ 2 ≤ 1 := by
  have hC : 0 ≤ Real.cos p1 * Real.cos p2 := mul_nonneg hc1 hc2
  have hs1 : Real.sin ((p2 - p1) / 2) ^ 2 = (1 - Real.cos (p2 - p1)) / 2 := by
    have h := Real.sin_sq_eq_half_sub ((p2 - p1) / 2)
    rw [show 2 * ((p2 - p1) / 2) = p2 - p1 by ring] at h
    linarith
  have hs2 : Real.sin (d / 2) ^ 2 = (1 - Real.cos d) / 2 := by
    have h := Real.sin_sq_eq_half_sub (d / 2)
    rw [show 2 * (d / 2) = d by ring] at h
    linarith
  have hcs : Real.cos (p2 - p1) =
      Real.cos p2 * Real.cos p1 + Real.sin p2 * Real.sin p1 :=
    Real.cos_sub p2 p1
  have hca : Real.cos (p2 + p1) =
      Real.cos p2 * Real.cos p1 - Real.sin p2 * Real.sin p1 :=
    Real.cos_add p2 p1
  constructor
  · have h1 := sq_nonneg (Real.sin ((p2 - p1) / 2))
    have h2 := sq_nonneg (Real.sin (d / 2))
    nlinarith
  · rw [hs1, hs2]
    have hd2 := Real.neg_one_le_cos d
    have hub := Real.cos_le_one (p2 + p1)
    have hmul : Real.cos p1 * Real.cos p2 * (-1) ≤
        Real.cos p1 * Real.cos p2 * Real.cos d :=
      mul_le_mul_of_nonneg_left hd2 hC
    nlinarith

theorem deg2rad_mem (lat : ℝ) (ha : -90 ≤ lat) (hb : lat ≤ 90) :
    deg2rad lat ∈ Set.Icc (-(Real.pi / 2)) (Real.pi / 2) := by
  unfold deg2rad
  constructor
  · nlinarith [Real.pi_pos]
  · nlinarith [Real.pi_pos]

theorem calculateDistance_eq_haversineSpec (lat1 lon1 lat2 lon2 : ℝ)
    (h1a : -90 ≤ lat1) (h1b : lat1 ≤ 90) (h2a : -90 ≤ lat2)
    (h2b : lat2 ≤ 90) :
    calculateDistance lat1 lon1 lat2 lon2 =
      haversineSpecDistance lat1 lon1 lat2 lon2 := by
  have hc1 : 0 ≤ Real.cos (deg2rad lat1) :=
    Real.cos_nonneg_of_mem_Icc (deg2rad_mem lat1 h1a h1b)
  have hc2 : 0 ≤ Real.cos (deg2rad lat2) :=
    Real.cos_nonneg_of_mem_Icc (deg2rad_mem lat2 h2a h2b)
  unfold calculateDistance haversineSpecDistance
  dsimp only
  have hdlat : deg2rad (lat2 - lat1) = deg2rad lat2 - deg2rad lat1 := by
    unfold deg2rad
    ring
  have hdlon : deg2rad (lon2 - lon1) = deg2rad lon2 - deg2rad lon1 := by
    unfold deg2rad
    ring
  rw [hdlat, hdlon]
  rw [show Real.sin ((deg2rad lat2 - deg2rad lat1) / 2) *
        Real.sin ((deg2rad lat2 - deg2rad lat1) / 2) =
      Real.sin ((deg2rad lat2 - deg2rad lat1) / 2) ^ 2 from (pow_two _).symm]
  rw [show Real.sin ((deg2rad lon2 - deg2rad lon1) / 2) *
        Real.sin ((deg2rad lon2 - deg2rad lon1) / 2) =
      Real.sin ((deg2rad lon2 - deg2rad lon1) / 2) ^ 2 from (pow_two _).symm]
  obtain ⟨hb0, hb1⟩ := haversine_h_bounds (deg2rad lat1) (deg2rad lat2)
    (deg2rad lon2 - deg2rad lon1) hc1 hc2
  rw [atan2_sqrt_eq_arcsin hb0 hb1]
  ring

/-! ### Claim theorems -/

/-- C1: for every reminder and trigger type, across any sequence of engine
events (scheduler ticks, manual trigger invocations, location updates,
timers, call callbacks), the corresponding notified flag transitions from
false to true at most once — the count of persisted flag writes plus the
initial flag value never exceeds one — and a reminder whose flag is true
is never again selected (guard-reserved or guard-skipped) or re-notified
(email, push, flag write) for that trigger type, unless
`resetNotificationStatus` is invoked for that reminder and trigger type. -/
theorem c1_at_most_one_notification (env : Env) (st : SvcState)
    (es : List Event) (id : ReminderId) (t : TriggerType)
    (hnd : (st.reminders.map Prod.fst).Nodup)
    (hnr : Event.reset id t ∉ es) :
    markCount (run env st es).2 id t + flagVal st.reminders id t ≤ 1 ∧
    (storedFlag st.reminders id t = true →
      storedFlag (run env st es).1.reminders id t = true ∧
      ∀ a ∈ (run env st es).2, triggerActionFor a id t = false) := by
  constructor
  · have h1 := run_mark_measure env id t es st hnr hnd
    have h2 := flagVal_le_one (run env st es).1.reminders id t
    omega
  · intro hflag
    exact run_flagTrue env id t es st hnr hnd hflag

/-- Witness for C1: a store with one due time reminder, two consecutive
time ticks; the hypotheses (unique document ids, no reset events) hold by
computation. -/
theorem c1_witness :
    ((stW1.reminders.map Prod.fst).Nodup ∧
      Event.reset 1 TriggerType.time ∉ esW1) ∧
    (markCount (run envAll stW1 esW1).2 1 TriggerType.time +
        flagVal stW1.reminders 1 TriggerType.time ≤ 1 ∧
      (storedFlag stW1.reminders 1 TriggerType.time = true →
        storedFlag (run envAll stW1 esW1).1.reminders 1 TriggerType.time
            = true ∧
          ∀ a ∈ (run envAll stW1 esW1).2,
            triggerActionFor a 1 TriggerType.time = false)) :=
  ⟨⟨by decide, by decide⟩,
    c1_at_most_one_notification envAll stW1 esW1 1 TriggerType.time
      (by decide) (by decide)⟩

/-- C2: `callAttempts` is bounded by 2.  `makeReminderCall` places no call
and performs no state change when the stored `callAttempts` is already at
least 2; every placed call increments `callAttempts` by exactly 1; and
across any sequence of engine events (ticks, retry timers, polls, webhook
callbacks) the attempts counter never exceeds 2 and the number of placed
calls plus the initial counter stays within 2. -/
theorem c2_bounded_call_attempts :
    (∀ (placeOk : Bool) (st : SvcState) (id : ReminderId) (now : Int)
        (r : ReminderDoc), dbFind? st.reminders id = some r →
        2 ≤ r.callAttempts → makeReminderCall placeOk st id now = (st, [])) ∧
    (∀ (placeOk : Bool) (st : SvcState) (id : ReminderId) (now : Int)
        (sid : Nat),
        Action.callDispatch id sid ∈ (makeReminderCall placeOk st id now).2 →
        attemptsOf (makeReminderCall placeOk st id now).1.reminders id =
          attemptsOf st.reminders id + 1) ∧
    (∀ (env : Env) (st : SvcState) (es : List Event) (id : ReminderId),
        attemptsOf st.reminders id ≤ 2 →
        attemptsOf (run env st es).1.reminders id ≤ 2 ∧
        dispatchCount (run env st es).2 id + attemptsOf st.reminders id ≤ 2)
    := by
  refine ⟨?_, ?_, ?_⟩
  · intro placeOk st id now r hfind h2
    unfold makeReminderCall
    rw [hfind]
    dsimp only
    rw [if_pos h2]
  · intro placeOk st id now sid hmem
    cases hfind : dbFind? st.reminders id with
    | none =>
      unfold makeReminderCall at hmem
      rw [hfind] at hmem
      simp at hmem
    | some r =>
      by_cases h2 : 2 ≤ r.callAttempts
      · unfold makeReminderCall at hmem
        rw [hfind] at hmem
        dsimp only at hmem
        rw [if_pos h2] at hmem
        simp at hmem
      · cases hp : placeOk
        · unfold makeReminderCall at hmem
          rw [hfind] at hmem
          dsimp only at hmem
          rw [if_neg h2] at hmem
          rw [hp] at hmem
          simp at hmem
        · unfold makeReminderCall
          rw [hfind]
          dsimp only
          rw [if_neg h2, if_pos (show true = true from rfl)]
          simp [attemptsOf, dbFind?_update_self, hfind]
  · intro env st es id h
    refine ⟨run_attempts_le env id es st h, ?_⟩
    have h1 := run_dispatch_measure env id es st
    have h2 := run_attempts_le env id es st h
    omega

/-- Witness for C2: a reminder starting at zero attempts, three retry
timers firing; the hypothesis (initial counter within 2) holds by
computation. -/
theorem c2_witness :
    attemptsOf stW2.reminders 1 ≤ 2 ∧
    (attemptsOf (run envAll stW2 esW2).1.reminders 1 ≤ 2 ∧
      dispatchCount (run envAll stW2 esW2).2 1 +
        attemptsOf stW2.reminders 1 ≤ 2) :=
  ⟨by decide, c2_bounded_call_attempts.2.2 envAll stW2 esW2 1 (by decide)⟩

/-- C3 counterexample: in the location cron tick, a candidate whose
`(location, id)` key is already reserved in the dedup guard is still
processed — its notified-flag write is emitted — and the tick's action
trace contains no guard operation at all, so the claim that both scheduler
loops consult and reserve the guard before dispatch is false.  The owner in
the concrete state stands exactly at the reminder's coordinates, where the
source's haversine distance is within the 0.1 km threshold. -/
theorem c3_counterexample :
    ((TriggerType.location, 1) ∈ stC3.activeReminders) ∧
    Action.markNotified 1 TriggerType.location ∈
      (checkLocationBasedReminders envAll stC3 0).2 ∧
    hasGuardAction (checkLocationBasedReminders envAll stC3 0).2 = false ∧
    calculateDistance 0 0 0 0 ≤ 0.1 := by
  refine ⟨by decide, by decide, by decide, ?_⟩
  rw [calculateDistance_self]
  norm_num

/-- C3 (amended): the time cron tick consults the dedup guard for every
candidate — an already reserved `(time, id)` key is skipped with no other
effect, otherwise the key is reserved before `processReminder` runs and the
reservation is removed afterwards — while the location cron tick dispatches
its candidates without consulting the guard at all (only the separate
location-update path uses the guard for location triggers, releasing after
a fixed 5-minute delay). -/
theorem c3_amended_guard_discipline :
    (∀ (env : Env) (now : Int) (st : SvcState)
        (c : ReminderId × ReminderDoc),
        (TriggerType.time, c.1) ∈ st.activeReminders →
        timeCandidateStep env now st c =
          (st, [Action.guardSkip TriggerType.time c.1])) ∧
    (∀ (env : Env) (now : Int) (st : SvcState)
        (c : ReminderId × ReminderDoc),
        (TriggerType.time, c.1) ∉ st.activeReminders →
        (timeCandidateStep env now st c).1.activeReminders =
            st.activeReminders ∧
          (timeCandidateStep env now st c).2 =
            Action.guardReserve TriggerType.time c.1 ::
              (processReminder env
                { st with activeReminders :=
                    (TriggerType.time, c.1) :: st.activeReminders }
                c.1 c.2 TriggerType.time now).2
              ++ [Action.guardRelease TriggerType.time c.1]) ∧
    (∀ (env : Env) (st : SvcState) (now : Int),
        hasGuardAction (checkLocationBasedReminders env st now).2 = false)
    := by
  refine ⟨?_, ?_, ?_⟩
  · intro env now st c hg
    unfold timeCandidateStep
    rw [if_pos hg]
  · intro env now st c hg
    unfold timeCandidateStep
    rw [if_neg hg]
    dsimp only
    constructor
    · rw [processReminder_guard]
      exact List.erase_cons_head _ _
    · rfl
  · intro env st now
    have h := runCandidates_inv (locationCandidateStep env now)
      (fun _ => True) (fun a => isGuardAction a = false) (locationQuery st) st
      (fun s c _ _ =>
        ⟨trivial, locationCandidateStep_guardFree env now s c⟩)
      trivial
    unfold hasGuardAction
    rw [List.any_eq_false]
    intro a ha
    simp [h.2 a ha]

/-- Witness for C3 (amended): a concrete state with the `(time, 1)` key
reserved; the tick's candidate body only emits the skip marker. -/
theorem c3_amended_witness :
    (TriggerType.time, (1 : ReminderId)) ∈ stW3.activeReminders ∧
    timeCandidateStep envAll 5 stW3
        (1, { user := 0, reminderDateTime := some 0 }) =
      (stW3, [Action.guardSkip TriggerType.time 1]) :=
  ⟨by decide,
    c3_amended_guard_discipline.1 envAll 5 stW3
      (1, { user := 0, reminderDateTime := some 0 }) (by decide)⟩

/-- C4 counterexample: the delayed status poll never compares the polled
call SID with the SID stored on the reminder.  In the concrete state the
reminder's stored SID is 5, yet the poll for superseded SID 4 reporting
`no-answer` still overwrites `callStatus` (from `calling` to `no_answer`)
and schedules the 60-second retry, so the claim that such stale inputs are
ignored is false. -/
theorem c4_counterexample :
    (dbFind? stC4.reminders 1).map (fun r => r.callSid) = some (some 5) ∧
    storedCallStatus stC4.reminders 1 = some CallStatus.calling ∧
    storedCallStatus
        (checkCallStatus (fun _ => some ⟨"no-answer", 0⟩)
          stC4 1 4).1.reminders 1 = some CallStatus.no_answer ∧
    Action.scheduleRetry 1 60000 ∈
      (checkCallStatus (fun _ => some ⟨"no-answer", 0⟩) stC4 1 4).2 :=
  ⟨by decide, by decide, by decide, by decide⟩

/-- C4 (amended): an inbound webhook callback whose call reference matches
no reminder's stored `callSid` — in particular one superseded by a retry,
since each retry overwrites the stored SID — is ignored: no state change
and no retry.  The delayed 35-second status poll, by contrast, does not
compare the polled SID with the stored one and processes the result
regardless. -/
theorem c4_amended_stale_webhook_ignored (st : SvcState) (sid : Nat)
    (s : String) (d : Int)
    (h : ∀ p ∈ st.reminders, p.2.callSid ≠ some sid) :
    handleTwilioCallStatus st sid s d = (st, []) := by
  unfold handleTwilioCallStatus
  have hnone : st.reminders.find?
      (fun p => decide (p.2.callSid = some sid)) = none := by
    rw [List.find?_eq_none]
    intro p hp
    simp [h p hp]
  rw [hnone]

/-- Witness for C4 (amended): a webhook for SID 9 while the only reminder
stores SID 5; the hypothesis holds by computation. -/
theorem c4_amended_witness :
    (∀ p ∈ stC4.reminders, p.2.callSid ≠ some 9) ∧
    handleTwilioCallStatus stC4 9 "no-answer" 0 = (stC4, []) :=
  ⟨by decide, c4_amended_stale_webhook_ignored stC4 9 "no-answer" 0 (by decide)⟩

/-- C5 counterexample: when an internal error occurs while processing the
Twilio call-status callback, the route's catch block answers HTTP 500, not
200, so the claim that the handler responds 200 regardless of internal
outcome is false. -/
theorem c5_counterexample :
    (twilioCallStatusRoute true stC5 7 "completed" 10).2.2 = 500 := rfl

/-- C5 (amended): whenever the handler body completes without throwing the
route answers HTTP 200 for every request — including when no reminder
matches the posted CallSid — while an internal error is answered with 500
from the catch block. -/
theorem c5_amended_webhook_http (st : SvcState) (sid : Nat) (s : String)
    (d : Int) :
    (twilioCallStatusRoute false st sid s d).2.2 = 200 ∧
    (twilioCallStatusRoute true st sid s d).2.2 = 500 :=
  ⟨rfl, rfl⟩

/-- C6 (code evaluation): a location update for user 0 standing exactly at
the coordinates of their not-yet-notified location reminder leaves the
stored user collection unchanged — the supplied coordinates are never
persisted as `currentLocation` — so the scheduled location predicate
`isUserNearReminder` still answers false afterwards, although the source's
haversine distance between the supplied location and the reminder is within
the 0.1 km threshold. -/
theorem c6_location_never_persisted :
    (step envAll stW6 (Event.locationUpdate 0 ⟨0, 0⟩ 5)).1.users =
        stW6.users ∧
    (dbFind? stW6.users 0).map (fun u => u.currentLocation) = some none ∧
    isUserNearReminder envAll
        (step envAll stW6 (Event.locationUpdate 0 ⟨0, 0⟩ 5)).1 remW6 =
      false ∧
    calculateDistance 0 0 0 0 ≤ 0.1 := by
  refine ⟨by decide, by decide, by decide, ?_⟩
  rw [calculateDistance_self]
  norm_num

/-- C7: when the email channel throws (`emailOk = false`), the voice-call
dispatch still executes — when the owner has a provisioned calling number
and attempts remain, the call is placed — the real-time push is still
emitted, the trigger type's notified flag and timestamp are still set to
true/now and persisted, and the resulting store state is exactly the one a
successful email send would have produced. -/
theorem c7_email_failure_isolated (near : Coords → Coords → Bool)
    (st : SvcState) (id : ReminderId) (reminder : ReminderDoc)
    (t : TriggerType) (now : Int) (u : UserDoc) (r : ReminderDoc)
    (hu : dbFind? st.users reminder.user = some u)
    (hph : u.twilioPhoneNumber.isSome = true)
    (hr : dbFind? st.reminders id = some r)
    (hatt : r.callAttempts < 2) :
    Action.callDispatch id st.nextSid ∈
      (processReminder ⟨near, false, true⟩ st id reminder t now).2 ∧
    Action.pushDispatch reminder.user id t ∈
      (processReminder ⟨near, false, true⟩ st id reminder t now).2 ∧
    storedFlag
        (processReminder ⟨near, false, true⟩ st id reminder t now).1.reminders
        id t = true ∧
    storedNotifiedAt
        (processReminder ⟨near, false, true⟩ st id reminder t now).1.reminders
        id t = some now ∧
    (processReminder ⟨near, false, true⟩ st id reminder t now).1 =
      (processReminder ⟨near, true, true⟩ st id reminder t now).1 := by
  refine ⟨?_, ?_, ?_, ?_, ?_⟩
  · exact processReminder_callDispatch_mem _ st id reminder t now u r hu hph
      hr hatt rfl
  · exact processReminder_push_mem _ st id reminder t now u hu
  · exact processReminder_flag_self _ st id reminder t now
      (by rw [hr]; rfl) (by rw [hu]; rfl)
  · exact processReminder_notifiedAt_self _ st id reminder t now
      (by rw [hr]; rfl) (by rw [hu]; rfl)
  · exact processReminder_state_email_indep near near false true true st id
      reminder t now

/-- Witness for C7: concrete owner with a Twilio number, reminder with
attempts left; all hypotheses hold by computation. -/
theorem c7_witness :
    (dbFind? stW7.users remW7.user = some uW7 ∧
      uW7.twilioPhoneNumber.isSome = true ∧
      dbFind? stW7.reminders 1 = some remW7 ∧ remW7.callAttempts < 2) ∧
    (Action.callDispatch 1 stW7.nextSid ∈
        (processReminder ⟨nearAlways, false, true⟩ stW7 1 remW7
          TriggerType.time 99).2 ∧
      Action.pushDispatch remW7.user 1 TriggerType.time ∈
        (processReminder ⟨nearAlways, false, true⟩ stW7 1 remW7
          TriggerType.time 99).2 ∧
      storedFlag (processReminder ⟨nearAlways, false, true⟩ stW7 1 remW7
          TriggerType.time 99).1.reminders 1 TriggerType.time = true ∧
      storedNotifiedAt (processReminder ⟨nearAlways, false, true⟩ stW7 1
          remW7 TriggerType.time 99).1.reminders 1 TriggerType.time
          = some 99 ∧
      (processReminder ⟨nearAlways, false, true⟩ stW7 1 remW7
          TriggerType.time 99).1 =
        (processReminder ⟨nearAlways, true, true⟩ stW7 1 remW7
          TriggerType.time 99).1) :=
  ⟨⟨by decide, by decide, by decide, by decide⟩,
    c7_email_failure_isolated nearAlways stW7 1 remW7 TriggerType.time 99
      uW7 remW7 (by decide) (by decide) (by decide) (by decide)⟩

/-- C9: the call-outcome classification shared by the delayed status poll
and the webhook: `completed` with positive duration is terminal with no
retry; `completed` with duration 0 and `no-answer` map to `no_answer`;
`busy` and `failed` map to themselves; any unrecognized status maps to
`failed`; in every non-terminal case a retry is requested exactly when
`callAttempts < 2`.  The poll stores the classified status and arms the
retry with the fixed 60-second (60000 ms) delay exactly when the
classification asks for one, and the retry timer event re-invokes the
call-dispatch step `makeReminderCall`. -/
theorem c9_call_outcome_classification :
    (∀ (d : Int) (n : Nat), classifyCallOutcome "completed" d n =
        if 0 < d then (CallStatus.completed, false)
        else (CallStatus.no_answer, decide (n < 2))) ∧
    (∀ (d : Int) (n : Nat), classifyCallOutcome "no-answer" d n =
        (CallStatus.no_answer, decide (n < 2))) ∧
    (∀ (d : Int) (n : Nat), classifyCallOutcome "busy" d n =
        (CallStatus.busy, decide (n < 2))) ∧
    (∀ (d : Int) (n : Nat), classifyCallOutcome "failed" d n =
        (CallStatus.failed, decide (n < 2))) ∧
    (∀ (s : String) (d : Int) (n : Nat),
        s ∉ (["completed", "failed", "busy", "no-answer"] : List String) →
        classifyCallOutcome s d n = (CallStatus.failed, decide (n < 2))) ∧
    (∀ (g : Nat → Option TwilioCallInfo) (st : SvcState) (id : ReminderId)
        (sid : Nat) (info : TwilioCallInfo) (r : ReminderDoc),
        g sid = some info → dbFind? st.reminders id = some r →
        storedCallStatus (checkCallStatus g st id sid).1.reminders id =
            some (classifyCallOutcome info.status info.duration
              r.callAttempts).1 ∧
          (checkCallStatus g st id sid).2 =
            (if (classifyCallOutcome info.status info.duration
                r.callAttempts).2
             then [Action.scheduleRetry id 60000] else [])) ∧
    (∀ (env : Env) (st : SvcState) (id : ReminderId) (now : Int),
        step env st (Event.callRetryFire id now) =
          makeReminderCall env.placeOk st id now) := by
  refine ⟨?_, ?_, ?_, ?_, ?_, ?_, ?_⟩
  · intro d n
    simp [classifyCallOutcome]
  · intro d n
    simp [classifyCallOutcome]
  · intro d n
    simp [classifyCallOutcome]
  · intro d n
    simp [classifyCallOutcome]
  · intro s d n h
    simp only [List.mem_cons, List.mem_singleton, List.not_mem_nil, or_false,
      not_or] at h
    obtain ⟨h1, h2, h3, h4⟩ := h
    unfold classifyCallOutcome
    rw [if_neg h1, if_neg h2, if_neg h3, if_neg h4]
  · intro g st id sid info r hg hfind
    unfold checkCallStatus
    rw [hg, hfind]
    dsimp only
    constructor
    · simp [storedCallStatus, dbFind?_update_self, hfind]
    · rfl
  · intro env st id now
    rfl

/-- Witness for C9: a poll reporting `busy` for a reminder with one
attempt so far; the hypotheses hold by computation. -/
theorem c9_witness :
    ((fun _ : Nat => some (⟨"busy", 0⟩ : TwilioCallInfo)) 2 =
        some (⟨"busy", 0⟩ : TwilioCallInfo) ∧
      dbFind? stW9.reminders 1 = some remW9) ∧
    (storedCallStatus
        (checkCallStatus (fun _ => some ⟨"busy", 0⟩) stW9 1 2).1.reminders 1 =
          some (classifyCallOutcome "busy" 0 remW9.callAttempts).1 ∧
      (checkCallStatus (fun _ => some ⟨"busy", 0⟩) stW9 1 2).2 =
        (if (classifyCallOutcome "busy" 0 remW9.callAttempts).2
         then [Action.scheduleRetry 1 60000] else [])) :=
  ⟨⟨rfl, by decide⟩,
    c9_call_outcome_classification.2.2.2.2.2.1 (fun _ => some ⟨"busy", 0⟩)
      stW9 1 2 ⟨"busy", 0⟩ remW9 rfl (by decide)⟩

/-- C10: the location-update path only queries reminders whose
`reminderDateTime` is null or absent, so a hybrid reminder (coordinates
plus a set date-time) is never location-triggered through
`handleLocationUpdate`: its stored document is untouched and no action of
the update concerns it, for every environment — in particular even when
the supplied location is within 100 meters and its
`locationNotificationSent` flag is false. -/
theorem c10_hybrid_not_location_triggered (env : Env) (st : SvcState)
    (uid : UserId) (loc : Coords) (now : Int) (id : ReminderId)
    (h : ∀ p ∈ st.reminders, p.1 = id → p.2.reminderDateTime.isSome = true) :
    dbFind? (handleLocationUpdate env st uid loc now).1.reminders id =
      dbFind? st.reminders id ∧
    ∀ a ∈ (handleLocationUpdate env st uid loc now).2,
      actionReminder a ≠ id := by
  have hq : ∀ c ∈ locationUpdateQuery st uid, c.1 ≠ id := by
    intro c hc hcc
    have hdt := locationUpdateQuery_dateTime hc
    have hs := h c (locationUpdateQuery_mem hc) hcc
    rw [hdt] at hs
    simp at hs
  exact runCandidates_inv (locationUpdateCandidateStep env loc now)
    (fun s => dbFind? s.reminders id = dbFind? st.reminders id)
    (fun a => actionReminder a ≠ id) (locationUpdateQuery st uid) st
    (fun s c hc hP =>
      ⟨(locationUpdateCandidateStep_find_ne env loc now s c id
          (hq c hc)).trans hP,
        fun a ha => by
          show actionReminder a ≠ id
          rw [(locationUpdateCandidateStep_acts env loc now s c a ha).1]
          exact hq c hc⟩)
    rfl

/-- C8: for every pair of coordinates with valid latitudes (within ±90°),
the source's `calculateDistance` — haversine with earth radius constant
6371 km and central angle `2 * atan2 (sqrt a) (sqrt (1 - a))` — equals the
spec's haversine great-circle distance `2 * 6371 * arcsin (sqrt h)`, and
the proximity predicate holds if and only if that distance is at most
0.1 km; the comparison is the source's `<=`, so a pair at exactly 0.1 km
counts as near. -/
theorem c8_proximity_iff_haversine (lat1 lon1 lat2 lon2 : ℝ)
    (h1a : -90 ≤ lat1) (h1b : lat1 ≤ 90) (h2a : -90 ≤ lat2)
    (h2b : lat2 ≤ 90) :
    calculateDistance lat1 lon1 lat2 lon2 =
      haversineSpecDistance lat1 lon1 lat2 lon2 ∧
    (isNearLocation lat1 lon1 lat2 lon2 ↔
      haversineSpecDistance lat1 lon1 lat2 lon2 ≤ 0.1) := by
  have key := calculateDistance_eq_haversineSpec lat1 lon1 lat2 lon2 h1a h1b
    h2a h2b
  refine ⟨key, ?_⟩
  unfold isNearLocation
  rw [key]

/-- Witness for C8 at the concrete coordinates (0°, 0°) and (45°, 0°); the
latitude bounds hold by computation. -/
theorem c8_witness :
    ((-90 : ℝ) ≤ 0 ∧ (0 : ℝ) ≤ 90 ∧ (-90 : ℝ) ≤ 45 ∧ (45 : ℝ) ≤ 90) ∧
    (calculateDistance 0 0 45 0 = haversineSpecDistance 0 0 45 0 ∧
      (isNearLocation 0 0 45 0 ↔ haversineSpecDistance 0 0 45 0 ≤ 0.1)) :=
  ⟨⟨by norm_num, by norm_num, by norm_num, by norm_num⟩,
    c8_proximity_iff_haversine 0 0 45 0 (by norm_num) (by norm_num)
      (by norm_num) (by norm_num)⟩

/-- Witness for C10: a hybrid reminder with coordinates and a set
date-time; a location update at its exact coordinates does not touch it. -/
theorem c10_witness :
    (∀ p ∈ stW10.reminders, p.1 = 1 →
      p.2.reminderDateTime.isSome = true) ∧
    (dbFind? (handleLocationUpdate envAll stW10 0 ⟨0, 0⟩ 7).1.reminders 1 =
        dbFind? stW10.reminders 1 ∧
      ∀ a ∈ (handleLocationUpdate envAll stW10 0 ⟨0, 0⟩ 7).2,
        actionReminder a ≠ 1) :=
  ⟨by decide,
    c10_hybrid_not_location_triggered envAll stW10 0 ⟨0, 0⟩ 7 1 (by decide)⟩

end Botie
